import Mathlib

/-!
# SD card SPI driver: shallow embedding of `sd_card.c` / `sd_card.h`

The driver talks to three external collaborators that are not part of the
repository: the HAL millisecond tick (`HAL_GetTick`), the HAL SPI transport
(`HAL_SPI_Transmit`, `HAL_SPI_TransmitReceive`) and the chip-select pin
(`HAL_GPIO_WritePin`).  They are modelled by an environment `Env` of oracles
and a `State` that counts how often each oracle has been consulted and records
what the driver did (bytes put on MOSI, pin level, log lines, caller memory).

* Machine integers are natural numbers; `uint8_t` values are reduced `% 256`
  and `uint32_t` tick arithmetic is done `% 2 ^ 32` where the C code relies on
  it.
* The polling loops of the C code are bounded only by the tick source, so they
  are embedded with a fuel argument (one unit per loop iteration) and return
  `none` when the fuel runs out.
-/

namespace SdSpi

/-! ## Constants and types of `sd_card.h` -/

/-- Header macro `inv32(data)`: byte swap of a 32-bit value (sd_card.h:8). -/
def inv32 (data : Nat) : Nat :=
  ((data >>> 24) &&& 0xFF) ||| ((data >>> 8) &&& 0xFF00) |||
    ((data <<< 8) &&& 0xFF0000) ||| ((data <<< 24) &&& 0xFF000000)

def CRC7_POLYNOMIAL : Nat := 0x89

def SD_CMD_MASK : Nat := 0x40

def SD_BLOCK_SIZE : Nat := 512

def SD_WRITE_RESPONSE_MASK : Nat := 0x0F

def SD_WRITE_RESPONSE_ACCEPTED : Nat := 0x05

def SD_WRITE_RESPONSE_CRC_ERROR : Nat := 0x0B

def SD_WRITE_RESPONSE_WRITE_ERROR : Nat := 0x0D

def SD_TOKEN_17 : Nat := 0xFE

def SD_TOKEN_24 : Nat := 0xFE

def SD_TOKEN_25 : Nat := 0xFC

def SD_TOKEN_25_STOP : Nat := 0xFD

def SD_CMD0_GO_IDLE_STATE : Nat := SD_CMD_MASK ||| 0x00

def SD_CMD8_SEND_IF_COND : Nat := SD_CMD_MASK ||| 0x08

def SD_CMD17_READ_SINGLE_BLOCK : Nat := SD_CMD_MASK ||| 0x11

def SD_CMD24_WRITE_BLOCK : Nat := SD_CMD_MASK ||| 0x18

def SD_CMD25_WRITE_MULTIPLE_BLOCK : Nat := SD_CMD_MASK ||| 0x19

def SD_CMD41 : Nat := SD_CMD_MASK ||| 0x29

def SD_CMD55_APP_CMD : Nat := SD_CMD_MASK ||| 0x37

def SD_CMD58_READ_OCR : Nat := SD_CMD_MASK ||| 0x3A

/-- Enum `sd_card_status_t` (sd_card.h:108-114). -/
inductive sd_card_status_t where
  | SD_OK
  | SD_TIMEOUT
  | SD_TX_ERROR
  | SD_RX_ERROR
  | SD_ERROR
  deriving DecidableEq, Repr

open sd_card_status_t

def R1_IN_IDLE_STATE : Nat := 1 <<< 0

def R1_ERASE_RESET : Nat := 1 <<< 1

def R1_ILLEGAL_COMMAND : Nat := 1 <<< 2

def R1_COMMAND_CRC_ERROR : Nat := 1 <<< 3

def R1_ERASE_SEQUENCE_ERROR : Nat := 1 <<< 4

def R1_ADDRESS_ERROR : Nat := 1 <<< 5

def R1_PARAMETER_ERROR : Nat := 1 <<< 6

def R1_BUSY : Nat := 1 <<< 7

/-- Struct `sd_card_frame_t` (sd_card.h:140-144): packed, 6 bytes.  The field
`arg` holds the 32-bit pattern of the C `int32_t`. -/
structure sd_card_frame_t where
  command : Nat
  arg : Nat
  crc7 : Nat
  deriving DecidableEq, Repr

/-- Memory image of the packed frame on the little-endian target: this is what
`(uint8_t *)&cmd` points at and what the transport sends. -/
def sd_card_frame_t.bytes (f : sd_card_frame_t) : List Nat :=
  [f.command % 256, f.arg % 256, (f.arg >>> 8) % 256, (f.arg >>> 16) % 256,
    (f.arg >>> 24) % 256, f.crc7 % 256]

/-- Value of a `uint32_t` whose four bytes in memory (little-endian target) are
the given list. -/
def le32 (b : List Nat) : Nat :=
  b.getD 0 0 + (b.getD 1 0 <<< 8) + (b.getD 2 0 <<< 16) + (b.getD 3 0 <<< 24)

/-- Subtraction of two `uint32_t` values, as in `HAL_GetTick() - ticks`. -/
def sub32 (a b : Nat) : Nat := (a % 2 ^ 32 + 2 ^ 32 - b % 2 ^ 32) % 2 ^ 32

/-! ## External collaborators -/

/-- The oracles the driver consumes. -/
structure Env where
  /-- Tick count returned by the `n`-th call of `HAL_GetTick` (taken `% 2 ^ 32`). -/
  tick : Nat → Nat
  /-- Byte shifted in from the card during the `n`-th byte exchanged on the bus
  (taken `% 256`). -/
  miso : Nat → Nat
  /-- Whether the `n`-th HAL SPI call returns `HAL_OK`. -/
  hal : Nat → Bool

/-- A call of a single-block operation, recorded for the call trace. -/
inductive BlockCall where
  | read (p_data addr : Nat)
  | write (p_data addr : Nat)
  deriving DecidableEq, Repr

/-- What has happened so far. -/
structure State where
  /-- Number of `HAL_GetTick` calls made. -/
  tickCalls : Nat
  /-- Number of HAL SPI calls made. -/
  halCalls : Nat
  /-- Number of bytes exchanged on the bus. -/
  clk : Nat
  /-- Bytes the driver has put on MOSI, oldest first. -/
  mosi : List Nat
  /-- Level of the chip-select pin (`true` = high = deselected). -/
  cs : Bool
  /-- Lines passed to `print_in` / `print_wr`, oldest first. -/
  log : List String
  /-- Caller memory, byte addressed. -/
  mem : Nat → Nat
  /-- Ghost field: the single-block operations entered so far, oldest first. -/
  trace : List BlockCall

/-- Tick read: consumes one value of the tick oracle. -/
def HAL_GetTick (env : Env) (s : State) : Nat × State :=
  (env.tick s.tickCalls % 2 ^ 32, { s with tickCalls := s.tickCalls + 1 })

/-- Transmit-only SPI call.  A call that does not return `HAL_OK` is modelled as
exchanging nothing. -/
def HAL_SPI_Transmit (env : Env) (data : List Nat) (s : State) : Bool × State :=
  if env.hal s.halCalls then
    (true, { s with halCalls := s.halCalls + 1, clk := s.clk + data.length,
                    mosi := s.mosi ++ data })
  else
    (false, { s with halCalls := s.halCalls + 1 })

/-- Full-duplex SPI call: `tx` is sent, and the destination buffer (current
content `rx`) receives one byte per byte sent.  A call that does not return
`HAL_OK` is modelled as exchanging nothing and leaving the buffer as it was. -/
def HAL_SPI_TransmitReceive (env : Env) (tx rx : List Nat) (s : State) :
    Bool × List Nat × State :=
  if env.hal s.halCalls then
    (true, (List.range tx.length).map (fun i => env.miso (s.clk + i) % 256),
      { s with halCalls := s.halCalls + 1, clk := s.clk + tx.length,
               mosi := s.mosi ++ tx })
  else
    (false, rx, { s with halCalls := s.halCalls + 1 })

/-- Pin write on the chip-select line. -/
def HAL_GPIO_WritePin (level : Bool) (s : State) : State := { s with cs := level }

/-- Debug output `print_in` (debug.h): the line is appended to the log. -/
def print_in (line : String) (s : State) : State := { s with log := s.log ++ [line] }

/-- Debug output `print_wr` (debug.h): the line is appended to the log. -/
def print_wr (line : String) (s : State) : State := { s with log := s.log ++ [line] }

/-- Store of `data` into caller memory at address `p`. -/
def State.store (s : State) (p : Nat) (data : List Nat) : State :=
  { s with mem := fun a => if p ≤ a ∧ a - p < data.length then data.getD (a - p) 0 else s.mem a }

/-- The `n` bytes of caller memory at address `p`. -/
def State.load (s : State) (p n : Nat) : List Nat :=
  (List.range n).map (fun i => s.mem (p + i) % 256)

/-- Ghost update: a single-block operation is entered. -/
def State.record (s : State) (c : BlockCall) : State := { s with trace := s.trace ++ [c] }

/-! ## `sd_card.c` -/

/-- One pass of the inner `for` body of `CRC7` (sd_card.c:26); `crc` is a
`uint8_t`, so the `int` result of the conditional is reduced `% 256`. -/
def CRC7.bit (crc : Nat) : Nat :=
  if crc &&& 0x80 ≠ 0 then ((crc <<< 1) ^^^ (CRC7_POLYNOMIAL <<< 1)) % 256
  else (crc <<< 1) % 256

/-- One pass of the `while` body of `CRC7` (sd_card.c:24-27). -/
def CRC7.byte (crc b : Nat) : Nat :=
  CRC7.bit (CRC7.bit (CRC7.bit (CRC7.bit (CRC7.bit (CRC7.bit (CRC7.bit (CRC7.bit
    (crc ^^^ (b % 256)))))))))

/-- Function `CRC7` (sd_card.c:21-30) over the `size` bytes at `pack`. -/
def CRC7 (pack : List Nat) : Nat :=
  (pack.foldl CRC7.byte 0x00) ||| 0x01

/-- Function `SDSPISelect` (sd_card.c:35-37). -/
def SDSPISelect (s : State) : State := HAL_GPIO_WritePin false s

/-- Function `SDSPIDeselect` (sd_card.c:42-44). -/
def SDSPIDeselect (s : State) : State := HAL_GPIO_WritePin true s

/-- The `while` loop of `SDCardWaitForReady` (sd_card.c:55-58); `ticks` is the
tick read before the loop and `rx_byte` the current content of the local. -/
def SDCardWaitForReady.loop (env : Env) (timeout ticks : Nat) :
    Nat → Nat → State → Option (sd_card_status_t × State)
  | 0, _, _ => none
  | fuel + 1, rx_byte, s =>
    let t := HAL_GetTick env s
    if sub32 t.1 ticks < timeout then
      let r := HAL_SPI_TransmitReceive env [0xFF] [rx_byte] t.2
      if r.2.1.headD 0 = 0xFF then some (SD_OK, r.2.2)
      else SDCardWaitForReady.loop env timeout ticks fuel (r.2.1.headD 0) r.2.2
    else some (SD_TIMEOUT, t.2)

/-- Function `SDCardWaitForReady` (sd_card.c:51-60). -/
def SDCardWaitForReady (env : Env) (fuel timeout : Nat) (s : State) :
    Option (sd_card_status_t × State) :=
  let t := HAL_GetTick env s
  SDCardWaitForReady.loop env timeout t.1 fuel 0x00 t.2

/-- Function `SDCardTransmitData` (sd_card.c:67-71). -/
def SDCardTransmitData (env : Env) (p_data : List Nat) (s : State) :
    sd_card_status_t × State :=
  let r := HAL_SPI_Transmit env p_data s
  if r.1 ≠ true then (SD_TX_ERROR, r.2) else (SD_OK, r.2)

/-- The `for` loop of `SDCardReceiveData` (sd_card.c:80-83): `acc` holds the
bytes already stored at `p_data[0 .. data_ptr)`. -/
def SDCardReceiveData.loop (env : Env) :
    Nat → List Nat → State → sd_card_status_t × List Nat × State
  | 0, acc, s => (SD_OK, acc, s)
  | n + 1, acc, s =>
    let r := HAL_SPI_TransmitReceive env [0xFF] [] s
    if r.1 ≠ true then (SD_RX_ERROR, acc, r.2.2)
    else SDCardReceiveData.loop env n (acc ++ r.2.1) r.2.2

/-- Function `SDCardReceiveData` (sd_card.c:78-85).  The result carries the
bytes that were stored at `p_data[0 ..]`, in order; the caller of the embedding
puts them where `p_data` points. -/
def SDCardReceiveData (env : Env) (size : Nat) (s : State) :
    sd_card_status_t × List Nat × State :=
  SDCardReceiveData.loop env size [] s

/-- The `while` loop of `SDCardGetR1` (sd_card.c:95-99). -/
def SDCardGetR1.loop (env : Env) (timeout ticks : Nat) :
    Nat → Nat → State → Option (Nat × State)
  | 0, _, _ => none
  | fuel + 1, r1, s =>
    let t := HAL_GetTick env s
    if sub32 t.1 ticks < timeout then
      let r := HAL_SPI_TransmitReceive env [0xFF] [r1] t.2
      if r.2.1.headD 0 ≠ 0xFF then some (r.2.1.headD 0, r.2.2)
      else SDCardGetR1.loop env timeout ticks fuel (r.2.1.headD 0) r.2.2
    else some (r1, t.2)

/-- The chain of `if (r1 & FLAG) return FLAG;` of `SDCardGetR1`
(sd_card.c:100-108). -/
def SDCardGetR1.decode (r1 : Nat) : Nat :=
  if r1 &&& R1_BUSY ≠ 0 then R1_BUSY
  else if r1 &&& R1_PARAMETER_ERROR ≠ 0 then R1_PARAMETER_ERROR
  else if r1 &&& R1_ADDRESS_ERROR ≠ 0 then R1_ADDRESS_ERROR
  else if r1 &&& R1_ERASE_SEQUENCE_ERROR ≠ 0 then R1_ERASE_SEQUENCE_ERROR
  else if r1 &&& R1_COMMAND_CRC_ERROR ≠ 0 then R1_COMMAND_CRC_ERROR
  else if r1 &&& R1_ILLEGAL_COMMAND ≠ 0 then R1_ILLEGAL_COMMAND
  else if r1 &&& R1_ERASE_RESET ≠ 0 then R1_ERASE_RESET
  else if r1 &&& R1_IN_IDLE_STATE ≠ 0 then R1_IN_IDLE_STATE
  else 0x00

/-- Function `SDCardGetR1` (sd_card.c:91-109). -/
def SDCardGetR1 (env : Env) (fuel timeout : Nat) (s : State) : Option (Nat × State) :=
  let t := HAL_GetTick env s
  (SDCardGetR1.loop env timeout t.1 fuel 0xFF t.2).map
    (fun r => (SDCardGetR1.decode r.1, r.2))

/-- Function `SDCardGetR7` (sd_card.c:115-122). -/
def SDCardGetR7 (env : Env) (fuel timeout : Nat) (s : State) : Option (Nat × State) :=
  (SDCardGetR1 env fuel timeout s).map (fun r =>
    if r.1 > R1_IN_IDLE_STATE then (0xFFFFFFFF, r.2)
    else
      let x := HAL_SPI_TransmitReceive env [0xFF, 0xFF, 0xFF, 0xFF] [0xFF, 0xFF, 0xFF, 0xFF] r.2
      (le32 x.2.1, x.2.2))

/-- The `while` loop of `SDCardWaitToken` (sd_card.c:259-265). -/
def SDCardWaitToken.loop (env : Env) (token timeout ticks : Nat) :
    Nat → Nat → State → Option (sd_card_status_t × State)
  | 0, _, _ => none
  | fuel + 1, recv_token, s =>
    let t := HAL_GetTick env s
    if sub32 t.1 ticks < timeout then
      let r := HAL_SPI_TransmitReceive env [0xFF] [recv_token] t.2
      if r.2.1.headD 0 = token then some (SD_OK, r.2.2)
      else if r.2.1.headD 0 ≠ 0xFF then some (SD_ERROR, r.2.2)
      else SDCardWaitToken.loop env token timeout ticks fuel (r.2.1.headD 0) r.2.2
    else some (SD_TIMEOUT, t.2)

/-- Function `SDCardWaitToken` (sd_card.c:255-267). -/
def SDCardWaitToken (env : Env) (fuel token timeout : Nat) (s : State) :
    Option (sd_card_status_t × State) :=
  let t := HAL_GetTick env s
  SDCardWaitToken.loop env token timeout t.1 fuel 0x00 t.2

/-- The dummy-clock `for` loop of `SDCard_Init` (sd_card.c:130-131): `n` calls
of `HAL_SPI_Transmit` with one 0xFF byte, status ignored. -/
def SDCard_Init.clocks (env : Env) : Nat → State → State
  | 0, s => s
  | n + 1, s => SDCard_Init.clocks env n (HAL_SPI_Transmit env [0xFF] s).2

/-- The `while(1)` loop of `SDCard_Init` (sd_card.c:162-188), CMD55 followed by
ACMD41.  `wfuel` is the fuel handed to the inner polling loops, `ticks` the
tick read before the loop.  Result `some (some st, s)`: the function returned
`st` from inside the loop; `some (none, s)`: the loop was left by `break`. -/
def SDCard_Init.loop (env : Env) (wfuel ticks : Nat) :
    Nat → sd_card_frame_t → State → Option (Option sd_card_status_t × State)
  | 0, _, _ => none
  | fuel + 1, cmd, s =>
    let cmd := { cmd with command := SD_CMD55_APP_CMD }
    let cmd := { cmd with arg := inv32 0x00000000 }
    let cmd := { cmd with crc7 := CRC7 (cmd.bytes.take (6 - 1)) }
    match SDCardWaitForReady env wfuel 0xFFFF s with
    | none => none
    | some (st, s) =>
      if st ≠ SD_OK then some (some SD_TIMEOUT, s) else
      match HAL_SPI_Transmit env cmd.bytes s with
      | (ok, s) =>
        if ok ≠ true then some (some SD_TX_ERROR, s) else
        match SDCardGetR1 env wfuel 1000 s with
        | none => none
        | some (r1, s) =>
          if r1 ≠ R1_IN_IDLE_STATE then some (some SD_ERROR, s) else
          let cmd := { cmd with command := SD_CMD41 }
          let cmd := { cmd with arg := inv32 0x40000000 }
          let cmd := { cmd with crc7 := CRC7 (cmd.bytes.take (6 - 1)) }
          match SDCardWaitForReady env wfuel 0xFFFF s with
          | none => none
          | some (st, s) =>
            if st ≠ SD_OK then some (some SD_TIMEOUT, s) else
            match HAL_SPI_Transmit env cmd.bytes s with
            | (ok, s) =>
              if ok ≠ true then some (some SD_TX_ERROR, s) else
              match SDCardGetR1 env wfuel 1000 s with
              | none => none
              | some (r1, s) =>
                if r1 = 0x00 then some (none, s) else
                let t := HAL_GetTick env s
                if sub32 t.1 ticks > 5000 then some (some SD_TIMEOUT, t.2)
                else SDCard_Init.loop env wfuel ticks fuel cmd t.2

/-- The CMD58 step of `SDCard_Init` (sd_card.c:190-234).  The header macro
`inv32` names its argument four times, so `inv32(SDCardGetR7(1000))` calls
`SDCardGetR7` four times (embedded left to right; C leaves the order open),
and `x & (1 << 30) == 0` parses as `x & ((1 << 30) == 0)`. -/
def SDCard_Init.ocr (env : Env) (fuel : Nat) (cmd : sd_card_frame_t) (s : State) :
    Option (sd_card_status_t × State) :=
  let cmd := { cmd with command := SD_CMD58_READ_OCR }
  let cmd := { cmd with arg := inv32 0x00000000 }
  let cmd := { cmd with crc7 := CRC7 (cmd.bytes.take (6 - 1)) }
  match SDCardWaitForReady env fuel 0xFFFF s with
  | none => none
  | some (st, s) =>
    if st ≠ SD_OK then some (SD_TIMEOUT, s) else
    match HAL_SPI_Transmit env cmd.bytes s with
    | (ok, s) =>
      if ok ≠ true then some (SD_TX_ERROR, s) else
      match SDCardGetR7 env fuel 1000 s with
      | none => none
      | some (a, s) =>
        match SDCardGetR7 env fuel 1000 s with
        | none => none
        | some (b, s) =>
          match SDCardGetR7 env fuel 1000 s with
          | none => none
          | some (c, s) =>
            match SDCardGetR7 env fuel 1000 s with
            | none => none
            | some (d, s) =>
              let swapped := ((a >>> 24) &&& 0xFF) ||| ((b >>> 8) &&& 0xFF00) |||
                ((c <<< 8) &&& 0xFF0000) ||| ((d <<< 24) &&& 0xFF000000)
              let s :=
                if swapped &&& (if (1 <<< 30 : Nat) = 0 then 1 else 0) ≠ 0 then
                  print_in "SD Card Standard Capacity\r\n" s
                else
                  print_in "SD Card Extended Capacity\r\n" s
              some (SD_OK, SDSPIDeselect s)

/-- Function `SDCard_Init` (sd_card.c:125-235).  The local `cmd` is
uninitialised at entry; every field is assigned before it is read. -/
def SDCard_Init (env : Env) (fuel : Nat) (s : State) : Option (sd_card_status_t × State) :=
  let cmd : sd_card_frame_t := { command := 0, arg := 0, crc7 := 0 }
  let s := SDSPIDeselect s
  let s := SDCard_Init.clocks env 10 s
  let s := SDSPISelect s
  let cmd := { cmd with command := SD_CMD0_GO_IDLE_STATE }
  let cmd := { cmd with arg := 0 }
  let cmd := { cmd with crc7 := CRC7 (cmd.bytes.take (6 - 1)) }
  match SDCardWaitForReady env fuel 0xFFFF s with
  | none => none
  | some (st, s) =>
    if st ≠ SD_OK then some (SD_TIMEOUT, s) else
    let s := (HAL_SPI_Transmit env cmd.bytes s).2
    match SDCardGetR1 env fuel 1000 s with
    | none => none
    | some (r1, s) =>
      if r1 ≠ R1_IN_IDLE_STATE then some (SD_ERROR, s) else
      let cmd := { cmd with command := SD_CMD8_SEND_IF_COND }
      let cmd := { cmd with arg := inv32 0x000001AA }
      let cmd := { cmd with crc7 := CRC7 (cmd.bytes.take (6 - 1)) }
      match SDCardWaitForReady env fuel 0xFFFF s with
      | none => none
      | some (st, s) =>
        if st ≠ SD_OK then some (SD_TIMEOUT, s) else
        let s := (HAL_SPI_Transmit env cmd.bytes s).2
        match SDCardGetR7 env fuel 1000 s with
        | none => none
        | some (r7, s) =>
          let s :=
            if r7 = inv32 0x000001AA then print_in "SD Card Type: SD Ver. 2\r\n" s
            else print_wr "SD Card Type: MMC, SD Ver. 1 or Unknown\r\n" s
          let t := HAL_GetTick env s
          match SDCard_Init.loop env fuel t.1 fuel cmd t.2 with
          | none => none
          | some (some st, s) => some (st, s)
          | some (none, s) => SDCard_Init.ocr env fuel cmd s

/-- Function `SDCardWriteBlock` (sd_card.c:269-308). -/
def SDCardWriteBlock (env : Env) (fuel p_data addr : Nat) (s : State) :
    Option (sd_card_status_t × State) :=
  let s := s.record (.write p_data addr)
  let Token := SD_TOKEN_24
  let dummy_crc := [0xFF, 0xFF]
  let cmd : sd_card_frame_t := { command := SD_CMD24_WRITE_BLOCK, arg := addr, crc7 := 0xFF }
  let s := SDSPISelect s
  match SDCardWaitForReady env fuel 1000 s with
  | none => none
  | some (st, s) =>
    if st ≠ SD_OK then some (SD_TIMEOUT, s) else
    match SDCardTransmitData env cmd.bytes s with
    | (st, s) =>
      if st ≠ SD_OK then some (SD_TX_ERROR, s) else
      match SDCardGetR1 env fuel 1000 s with
      | none => none
      | some (r1, s) =>
        if r1 ≠ 0x00 then some (SD_ERROR, s) else
        match SDCardTransmitData env [Token] s with
        | (st, s) =>
          if st ≠ SD_OK then some (SD_TX_ERROR, s) else
          match SDCardTransmitData env (s.load p_data SD_BLOCK_SIZE) s with
          | (st, s) =>
            if st ≠ SD_OK then some (SD_TX_ERROR, s) else
            match SDCardTransmitData env dummy_crc s with
            | (st, s) =>
              if st ≠ SD_OK then some (SD_TX_ERROR, s) else
              match SDCardReceiveData env 1 s with
              | (st, resp_data, s) =>
                if st ≠ SD_OK then some (SD_RX_ERROR, s) else
                if resp_data.headD 0 &&& SD_WRITE_RESPONSE_MASK ≠ SD_WRITE_RESPONSE_ACCEPTED then
                  some (SD_ERROR, s)
                else
                  match SDCardWaitForReady env fuel 1000 s with
                  | none => none
                  | some (st, s) =>
                    if st ≠ SD_OK then some (SD_TIMEOUT, s) else
                    some (SD_OK, SDSPIDeselect s)

/-- Function `SDCardReadBlock` (sd_card.c:310-344). -/
def SDCardReadBlock (env : Env) (fuel p_data addr : Nat) (s : State) :
    Option (sd_card_status_t × State) :=
  let s := s.record (.read p_data addr)
  let Token := SD_TOKEN_17
  let cmd : sd_card_frame_t :=
    { command := SD_CMD17_READ_SINGLE_BLOCK, arg := addr, crc7 := 0xFF }
  let s := SDSPISelect s
  match SDCardWaitForReady env fuel 1000 s with
  | none => none
  | some (st, s) =>
    if st ≠ SD_OK then some (SD_TIMEOUT, s) else
    match SDCardTransmitData env cmd.bytes s with
    | (st, s) =>
      if st ≠ SD_OK then some (SD_TX_ERROR, s) else
      match SDCardGetR1 env fuel 1000 s with
      | none => none
      | some (r1, s) =>
        if r1 ≠ 0x00 then some (SD_ERROR, s) else
        match SDCardWaitToken env fuel Token 1000 s with
        | none => none
        | some (SD_ERROR, s) => some (SD_ERROR, s)
        | some (SD_TIMEOUT, s) => some (SD_TIMEOUT, s)
        | some (_, s) =>
          match SDCardReceiveData env SD_BLOCK_SIZE s with
          | (st, data, s) =>
            let s := s.store p_data data
            if st ≠ SD_OK then some (SD_RX_ERROR, s) else
            match SDCardReceiveData env 2 s with
            | (st, _, s) =>
              if st ≠ SD_OK then some (SD_RX_ERROR, s) else
              some (SD_OK, SDSPIDeselect s)

/-- Function `SD_WriteData` (sd_card.c:237-244); `addr` is a `uint32_t`. -/
def SD_WriteData (env : Env) (fuel : Nat) :
    Nat → Nat → Nat → State → Option (sd_card_status_t × State)
  | _, _, 0, s => some (SD_OK, s)
  | p_data, addr, blocks_am + 1, s =>
    match SDCardWriteBlock env fuel p_data addr s with
    | none => none
    | some (st, s) =>
      if st ≠ SD_OK then some (SD_ERROR, s)
      else SD_WriteData env fuel (p_data + 512) ((addr + 1) % 2 ^ 32) blocks_am s

/-- Function `SD_ReadData` (sd_card.c:246-253); `addr` is a `uint32_t`. -/
def SD_ReadData (env : Env) (fuel : Nat) :
    Nat → Nat → Nat → State → Option (sd_card_status_t × State)
  | _, _, 0, s => some (SD_OK, s)
  | p_data, addr, blocks_am + 1, s =>
    match SDCardReadBlock env fuel p_data addr s with
    | none => none
    | some (st, s) =>
      if st ≠ SD_OK then some (SD_ERROR, s)
      else SD_ReadData env fuel (p_data + 512) ((addr + 1) % 2 ^ 32) blocks_am s

/-- Function `SDCardStartMultipleWriting` (sd_card.c:346-368). -/
def SDCardStartMultipleWriting (env : Env) (fuel start_addr : Nat) (s : State) :
    Option (sd_card_status_t × State) :=
  let cmd : sd_card_frame_t :=
    { command := SD_CMD25_WRITE_MULTIPLE_BLOCK, arg := start_addr, crc7 := 0xFF }
  let s := SDSPISelect s
  match SDCardWaitForReady env fuel 1000 s with
  | none => none
  | some (st, s) =>
    if st ≠ SD_OK then some (SD_TIMEOUT, s) else
    match SDCardTransmitData env cmd.bytes s with
    | (st, s) =>
      if st ≠ SD_OK then some (SD_TX_ERROR, s) else
      match SDCardGetR1 env fuel 1000 s with
      | none => none
      | some (r1, s) =>
        if r1 ≠ 0x00 then some (SD_ERROR, s) else
        match SDCardWaitForReady env fuel 1000 s with
        | none => none
        | some (st, s) =>
          if st ≠ SD_OK then some (SD_TIMEOUT, s) else
          some (SD_OK, SDSPIDeselect s)

/-- Function `SDCardPushBlock` (sd_card.c:370-398). -/
def SDCardPushBlock (env : Env) (fuel p_data : Nat) (s : State) :
    Option (sd_card_status_t × State) :=
  let Token := SD_TOKEN_25
  let dummy_crc := [0xFF, 0xFF]
  let s := SDSPISelect s
  match SDCardWaitForReady env fuel 1000 s with
  | none => none
  | some (st, s) =>
    if st ≠ SD_OK then some (SD_TIMEOUT, s) else
    match SDCardTransmitData env [Token] s with
    | (st, s) =>
      if st ≠ SD_OK then some (SD_TX_ERROR, s) else
      match SDCardTransmitData env (s.load p_data SD_BLOCK_SIZE) s with
      | (st, s) =>
        if st ≠ SD_OK then some (SD_TX_ERROR, s) else
        match SDCardTransmitData env dummy_crc s with
        | (st, s) =>
          if st ≠ SD_OK then some (SD_TX_ERROR, s) else
          match SDCardReceiveData env 1 s with
          | (st, resp_data, s) =>
            if st ≠ SD_OK then some (SD_RX_ERROR, s) else
            if resp_data.headD 0 &&& SD_WRITE_RESPONSE_MASK ≠ SD_WRITE_RESPONSE_ACCEPTED then
              some (SD_ERROR, s)
            else
              match SDCardWaitForReady env fuel 1000 s with
              | none => none
              | some (st, s) =>
                if st ≠ SD_OK then some (SD_TIMEOUT, s) else
                some (SD_OK, SDSPIDeselect s)

/-- Function `SDCardStopMultipleWriting` (sd_card.c:400-422). -/
def SDCardStopMultipleWriting (env : Env) (fuel : Nat) (s : State) :
    Option (sd_card_status_t × State) :=
  let Token := SD_TOKEN_25_STOP
  let dummy := 0xFF
  let s := SDSPISelect s
  match SDCardTransmitData env [Token] s with
  | (st, s) =>
    if st ≠ SD_OK then some (SD_TX_ERROR, SDSPIDeselect s) else
    match SDCardTransmitData env [dummy] s with
    | (st, s) =>
      if st ≠ SD_OK then some (SD_RX_ERROR, SDSPIDeselect s) else
      match SDCardWaitForReady env fuel 1000 s with
      | none => none
      | some (st, s) =>
        if st ≠ SD_OK then some (SD_TIMEOUT, SDSPIDeselect s) else
        some (SD_OK, SDSPIDeselect s)

/-! ## Definitions used to state the properties -/

/-- One clock of the CRC-7 shift register with generator x^7 + x^3 + 1
(polynomial 0x09): the 7-bit register `c` is shifted left by one, and the
generator is xor-ed in when the bit shifted out differs from the message bit
`d`. -/
def crc7Std.bit (c : Nat) (d : Bool) : Nat :=
  if xor (c.testBit 6) d then ((c <<< 1) % 128) ^^^ 0x09 else (c <<< 1) % 128

/-- The register after the eight bits of the byte `b`, most significant first. -/
def crc7Std.byte (c b : Nat) : Nat :=
  crc7Std.bit (crc7Std.bit (crc7Std.bit (crc7Std.bit (crc7Std.bit (crc7Std.bit
    (crc7Std.bit (crc7Std.bit c (b.testBit 7)) (b.testBit 6)) (b.testBit 5)) (b.testBit 4))
    (b.testBit 3)) (b.testBit 2)) (b.testBit 1)) (b.testBit 0)

/-- Standard CRC-7 of a byte sequence, following the words of the
specification: generator 0x09, initial value 0, bits taken most significant
first. -/
def crc7Std (bs : List Nat) : Nat := bs.foldl crc7Std.byte 0

/-- The state after `t` further tick reads, `h` further HAL SPI calls and `c`
further bytes on the bus, the bytes `tx` having been put on MOSI. -/
def State.adv (s : State) (t h c : Nat) (tx : List Nat) : State :=
  { s with tickCalls := s.tickCalls + t, halCalls := s.halCalls + h, clk := s.clk + c,
           mosi := s.mosi ++ tx }

/-- Power-on state: nothing has happened, chip-select is high, memory is zero. -/
def State.init : State :=
  { tickCalls := 0, halCalls := 0, clk := 0, mosi := [], cs := true, log := [],
    mem := fun _ => 0, trace := [] }

/-- A card answering one block read: ready at once, R1 = 0x00 after one idle
byte, the start token after two idle bytes, then the payload `(7 * i + 3) % 256`
and two trailer bytes; the tick source stands still and every HAL call
succeeds. -/
def cardReadOk : Env where
  tick := fun _ => 0
  miso := fun i =>
    if i < 8 then 0xFF else if i = 8 then 0x00 else if i < 11 then 0xFF
    else if i = 11 then 0xFE else if i < 524 then (7 * (i - 12) + 3) % 256 else 0xFF
  hal := fun _ => true

/-- A card that rejects every command with R1 = illegal-command (0x04): ready at
once, then 0x04 as the first byte after the six frame bytes. -/
def cardIllegal : Env where
  tick := fun _ => 0
  miso := fun i => if i = 7 then 0x04 else 0xFF
  hal := fun _ => true

/-- A card whose first byte other than 0xFF is `r`, after two idle bytes. -/
def cardR1 (r : Nat) : Env where
  tick := fun _ => 0
  miso := fun i => if i = 2 then r else 0xFF
  hal := fun _ => true

/-- A card that stays busy (every byte is `v`) while each tick read is `step`
milliseconds after the previous one. -/
def cardBusy (v step : Nat) : Env where
  tick := fun n => step * n
  miso := fun _ => v
  hal := fun _ => true

/-- A card answering one block write with the data-response byte `d`: ready at
once, R1 = 0x00 after one idle byte, and `d` as the byte that follows the
token, the payload and the two filler CRC bytes. -/
def cardWrite (d : Nat) : Env where
  tick := fun _ => 0
  miso := fun i => if i = 8 then 0x00 else if i = 524 then d else 0xFF
  hal := fun _ => true

/-- A card answering block reads back to back: each read takes 523 bytes (ready
byte, six frame bytes, R1 = 0x00, the start token, 512 payload bytes, two
trailer bytes). -/
def cardReads : Env where
  tick := fun _ => 0
  miso := fun i => if i % 523 = 7 then 0x00 else if i % 523 = 8 then 0xFE else 0xFF
  hal := fun _ => true

/-- A card answering block writes back to back: each write takes 525 bytes
(ready byte, six frame bytes, R1 = 0x00, token, 512 payload bytes, two filler
bytes, the data response 0x05 and one ready byte). -/
def cardWrites : Env where
  tick := fun _ => 0
  miso := fun i => if i % 525 = 7 then 0x00 else if i % 525 = 523 then 0x05 else 0xFF
  hal := fun _ => true

/-- The state a run returned in, or `d` when it did not return. -/
def finalState (d : State) (r : Option (sd_card_status_t × State)) : State :=
  (r.map Prod.snd).getD d

/-- The states between the block reads of a multi-block read: state `i` is the
one the `i`-th single-block read starts in. -/
def readChain (env : Env) (fuel p_data addr : Nat) (s : State) : Nat → State
  | 0 => s
  | i + 1 =>
    finalState s (SDCardReadBlock env fuel (p_data + 512 * i) (addr + i)
      (readChain env fuel p_data addr s i))

/-- The states between the block writes of a multi-block write. -/
def writeChain (env : Env) (fuel p_data addr : Nat) (s : State) : Nat → State
  | 0 => s
  | i + 1 =>
    finalState s (SDCardWriteBlock env fuel (p_data + 512 * i) (addr + i)
      (writeChain env fuel p_data addr s i))

/-- The environment `base` with the HAL SPI call number `c` failing. -/
def cardFailAt (base : Env) (c : Nat) : Env :=
  { base with hal := fun i => decide (i ≠ c) }

/-- Bytes a standard-capacity card sends during `SDCard_Init`: ten dummy clocks,
then for each command one ready byte, six bytes during the frame and the
response: CMD0 gives R1 = 0x01, CMD8 gives 0x01 and the echo 00 00 01 AA, CMD55
gives 0x01, ACMD41 gives 0x00, CMD58 gives 0x00 and the OCR 80 FF 80 00, whose
bit 30 is clear.  After that the card is silent (0xFF). -/
def initStream : List Nat :=
  List.replicate 10 0xFF ++
  [0xFF] ++ List.replicate 6 0xFF ++ [0x01] ++
  [0xFF] ++ List.replicate 6 0xFF ++ [0x01, 0x00, 0x00, 0x01, 0xAA] ++
  [0xFF] ++ List.replicate 6 0xFF ++ [0x01] ++
  [0xFF] ++ List.replicate 6 0xFF ++ [0x00] ++
  [0xFF] ++ List.replicate 6 0xFF ++ [0x00, 0x80, 0xFF, 0x80, 0x00]

/-- A standard-capacity card during initialisation; each tick read is 500 ms
after the previous one. -/
def cardStandard : Env where
  tick := fun n => 500 * n
  miso := fun i => initStream.getD i 0xFF
  hal := fun _ => true

/-- A card that is busy for two polls before it answers one block write with
the data-response byte `d`: 0x00 twice, then ready; R1 = 0x00 after one idle
byte; `d` after the token, the payload and the two filler CRC bytes. -/
def cardWriteBusy (d : Nat) : Env where
  tick := fun _ => 0
  miso := fun i => if i < 2 then 0x00 else if i = 10 then 0x00 else if i = 526 then d else 0xFF
  hal := fun _ => true

/-- The state `SDCardWriteBlock` is in after its first ready wait. -/
def writeAfterWait (env : Env) (fuel p_data addr : Nat) (s : State) : State :=
  finalState s (SDCardWaitForReady env fuel 1000
    (SDSPISelect (s.record (BlockCall.write p_data addr))))

/-- The state after the CMD24 frame has been handed to the transport. -/
def writeAfterFrame (env : Env) (fuel p_data addr : Nat) (s : State) : State :=
  (SDCardTransmitData env
    (sd_card_frame_t.bytes { command := SD_CMD24_WRITE_BLOCK, arg := addr, crc7 := 0xFF })
    (writeAfterWait env fuel p_data addr s)).2

/-- The state after the R1 response to CMD24 has been read. -/
def writeAfterR1 (env : Env) (fuel p_data addr : Nat) (s : State) : State :=
  ((SDCardGetR1 env fuel 1000 (writeAfterFrame env fuel p_data addr s)).map Prod.snd).getD s

/-- The state after the write-start token. -/
def writeAfterToken (env : Env) (fuel p_data addr : Nat) (s : State) : State :=
  (SDCardTransmitData env [SD_TOKEN_24] (writeAfterR1 env fuel p_data addr s)).2

/-- The state after the 512 payload bytes. -/
def writeAfterPayload (env : Env) (fuel p_data addr : Nat) (s : State) : State :=
  (SDCardTransmitData env ((writeAfterToken env fuel p_data addr s).load p_data SD_BLOCK_SIZE)
    (writeAfterToken env fuel p_data addr s)).2

/-- The state after the two filler CRC bytes. -/
def writeAfterCrc (env : Env) (fuel p_data addr : Nat) (s : State) : State :=
  (SDCardTransmitData env [0xFF, 0xFF] (writeAfterPayload env fuel p_data addr s)).2

/-- The state in which the reception of the data-response byte returns. -/
def writeAfterResponse (env : Env) (fuel p_data addr : Nat) (s : State) : State :=
  (SDCardReceiveData env 1 (writeAfterCrc env fuel p_data addr s)).2.2

/-! ## CRC7 -/

set_option maxRecDepth 100000 in
theorem CRC7.bit_eq : ∀ R < 256,
    CRC7.bit R = ((R <<< 1) % 256) ^^^ (if R.testBit 7 then 0x12 else 0) := by
  decide

set_option maxRecDepth 100000 in
theorem crc7Std.two_mul_bit : ∀ c < 128, ∀ d : Bool,
    2 * crc7Std.bit c d =
      (((2 * c) <<< 1) % 256) ^^^ (if xor (c.testBit 6) d then 0x12 else 0) := by
  decide

theorem testBit_seven_double_xor (c m : Nat) :
    ((2 * c) ^^^ m).testBit 7 = xor (c.testBit 6) (m.testBit 7) := by
  have h : (2 * c).testBit 7 = c.testBit 6 := by
    rw [show 7 = 6 + 1 from rfl, Nat.testBit_succ]; simp
  simp [h]

theorem shl_xor_mod (a m : Nat) :
    ((a ^^^ m) <<< 1) % 256 = ((a <<< 1) % 256) ^^^ ((m <<< 1) % 256) := by
  apply Nat.eq_of_testBit_eq
  intro i
  rw [show 256 = 2 ^ 8 from rfl]
  simp only [Nat.testBit_mod_two_pow, Nat.testBit_xor, Nat.testBit_shiftLeft]
  by_cases h : i < 8 <;> by_cases h1 : 1 ≤ i <;> simp [h, h1]

theorem crc7Std.bit_lt (c : Nat) (d : Bool) : crc7Std.bit c d < 128 := by
  unfold crc7Std.bit
  have h : (c <<< 1) % 128 < 2 ^ 7 := Nat.mod_lt _ (by norm_num)
  split
  · exact Nat.xor_lt_two_pow h (by norm_num)
  · exact h

theorem CRC7.bit_step (c m : Nat) (hc : c < 128) (hm : m < 256) :
    CRC7.bit ((2 * c) ^^^ m) = (2 * crc7Std.bit c (m.testBit 7)) ^^^ ((m <<< 1) % 256) := by
  have hR : (2 * c) ^^^ m < 256 := Nat.xor_lt_two_pow (n := 8) (by omega) (by omega)
  rw [CRC7.bit_eq _ hR, crc7Std.two_mul_bit c hc, testBit_seven_double_xor, shl_xor_mod,
    Nat.xor_assoc, Nat.xor_assoc, Nat.xor_comm ((m <<< 1) % 256)]

theorem shl_lt (m : Nat) : (m <<< 1) % 256 < 256 := Nat.mod_lt _ (by norm_num)

set_option maxRecDepth 100000 in
theorem shl_bits : ∀ m < 256,
    ((m <<< 1) % 256).testBit 7 = m.testBit 6 ∧
    ((((m <<< 1) % 256) <<< 1) % 256).testBit 7 = m.testBit 5 ∧
    ((((((m <<< 1) % 256) <<< 1) % 256) <<< 1) % 256).testBit 7 = m.testBit 4 ∧
    ((((((((m <<< 1) % 256) <<< 1) % 256) <<< 1) % 256) <<< 1) % 256).testBit 7 = m.testBit 3 ∧
    ((((((((((m <<< 1) % 256) <<< 1) % 256) <<< 1) % 256) <<< 1) % 256) <<< 1) % 256).testBit 7
      = m.testBit 2 ∧
    ((((((((((((m <<< 1) % 256) <<< 1) % 256) <<< 1) % 256) <<< 1) % 256) <<< 1) % 256) <<< 1)
      % 256).testBit 7 = m.testBit 1 ∧
    ((((((((((((((m <<< 1) % 256) <<< 1) % 256) <<< 1) % 256) <<< 1) % 256) <<< 1) % 256) <<< 1)
      % 256) <<< 1) % 256).testBit 7 = m.testBit 0 ∧
    ((((((((((((((((m <<< 1) % 256) <<< 1) % 256) <<< 1) % 256) <<< 1) % 256) <<< 1) % 256) <<< 1)
      % 256) <<< 1) % 256) <<< 1) % 256) = 0 := by
  decide

theorem CRC7.byte_refines (c b : Nat) (hc : c < 128) :
    CRC7.byte (2 * c) b = 2 * crc7Std.byte c b := by
  have hm : b % 256 < 256 := Nat.mod_lt _ (by norm_num)
  have hb : ∀ i < 8, b.testBit i = (b % 256).testBit i := by
    intro i hi
    rw [show (256 : Nat) = 2 ^ 8 from rfl, Nat.testBit_mod_two_pow]
    simp [hi]
  unfold CRC7.byte crc7Std.byte
  rw [CRC7.bit_step _ _ hc hm,
    CRC7.bit_step _ _ (crc7Std.bit_lt _ _) (shl_lt _),
    CRC7.bit_step _ _ (crc7Std.bit_lt _ _) (shl_lt _),
    CRC7.bit_step _ _ (crc7Std.bit_lt _ _) (shl_lt _),
    CRC7.bit_step _ _ (crc7Std.bit_lt _ _) (shl_lt _),
    CRC7.bit_step _ _ (crc7Std.bit_lt _ _) (shl_lt _),
    CRC7.bit_step _ _ (crc7Std.bit_lt _ _) (shl_lt _),
    CRC7.bit_step _ _ (crc7Std.bit_lt _ _) (shl_lt _),
    hb 7 (by norm_num), hb 6 (by norm_num), hb 5 (by norm_num), hb 4 (by norm_num),
    hb 3 (by norm_num), hb 2 (by norm_num), hb 1 (by norm_num), hb 0 (by norm_num)]
  obtain ⟨h1, h2, h3, h4, h5, h6, h7, h8⟩ := shl_bits (b % 256) hm
  rw [h1, h2, h3, h4, h5, h6, h7, h8, Nat.xor_zero]

set_option maxRecDepth 100000 in
theorem two_mul_or_one : ∀ x < 128, 2 * x ||| 0x01 = 2 * x + 1 := by
  decide

set_option maxRecDepth 100000 in
theorem CRC7_golden :
    CRC7 [0x40, 0x00, 0x00, 0x00, 0x00] = 0x95 ∧ CRC7 [0x48, 0x00, 0x00, 0x01, 0xAA] = 0x87 := by
  decide

theorem CRC7.foldl_refines (bs : List Nat) (c : Nat) (hc : c < 128) :
    bs.foldl CRC7.byte (2 * c) = 2 * bs.foldl crc7Std.byte c ∧ bs.foldl crc7Std.byte c < 128 := by
  induction bs generalizing c with
  | nil => exact ⟨rfl, hc⟩
  | cons b bs ih =>
    have hb : crc7Std.byte c b < 128 := by unfold crc7Std.byte; exact crc7Std.bit_lt _ _
    simp only [List.foldl_cons, CRC7.byte_refines c b hc]
    exact ih _ hb

/-- C3: for every byte sequence, `CRC7` returns twice the standard CRC-7
(generator 0x09, initial value 0, most significant bit first) plus one, so the
low bit of the result is 1; the CMD0 frame gives 0x95 and the CMD8 frame with
argument 0x000001AA gives 0x87. -/
theorem CRC7_eq_standard (b : List Nat) :
    CRC7 b = 2 * crc7Std b + 1 ∧ crc7Std b < 128 ∧ CRC7 b % 2 = 1 ∧
      CRC7 [0x40, 0x00, 0x00, 0x00, 0x00] = 0x95 ∧
      CRC7 [0x48, 0x00, 0x00, 0x01, 0xAA] = 0x87 := by
  have h := CRC7.foldl_refines b 0 (by norm_num)
  have h1 : CRC7 b = 2 * crc7Std b + 1 := by
    unfold CRC7 crc7Std
    have h0 : List.foldl CRC7.byte 0x00 b = 2 * List.foldl crc7Std.byte 0 b := h.1
    rw [h0]
    exact two_mul_or_one _ h.2
  refine ⟨h1, h.2, ?_, CRC7_golden.1, CRC7_golden.2⟩
  rw [h1]; omega

/-! ## Transport primitives -/

@[simp] theorem State.adv_tickCalls (s : State) (t h c : Nat) (tx : List Nat) :
    (s.adv t h c tx).tickCalls = s.tickCalls + t := rfl

@[simp] theorem State.adv_halCalls (s : State) (t h c : Nat) (tx : List Nat) :
    (s.adv t h c tx).halCalls = s.halCalls + h := rfl

@[simp] theorem State.adv_clk (s : State) (t h c : Nat) (tx : List Nat) :
    (s.adv t h c tx).clk = s.clk + c := rfl

@[simp] theorem State.adv_mosi (s : State) (t h c : Nat) (tx : List Nat) :
    (s.adv t h c tx).mosi = s.mosi ++ tx := rfl

@[simp] theorem State.adv_cs (s : State) (t h c : Nat) (tx : List Nat) :
    (s.adv t h c tx).cs = s.cs := rfl

@[simp] theorem State.adv_log (s : State) (t h c : Nat) (tx : List Nat) :
    (s.adv t h c tx).log = s.log := rfl

@[simp] theorem State.adv_mem (s : State) (t h c : Nat) (tx : List Nat) :
    (s.adv t h c tx).mem = s.mem := rfl

@[simp] theorem State.adv_trace (s : State) (t h c : Nat) (tx : List Nat) :
    (s.adv t h c tx).trace = s.trace := rfl

@[simp] theorem State.adv_adv (s : State) (t h c t2 h2 c2 : Nat) (tx tx2 : List Nat) :
    (s.adv t h c tx).adv t2 h2 c2 tx2 = s.adv (t + t2) (h + h2) (c + c2) (tx ++ tx2) := by
  simp [State.adv, Nat.add_assoc]

theorem HAL_GetTick_eq (env : Env) (s : State) :
    HAL_GetTick env s = (env.tick s.tickCalls % 2 ^ 32, s.adv 1 0 0 []) := by
  simp [HAL_GetTick, State.adv]

theorem HAL_SPI_Transmit_ok (env : Env) (data : List Nat) (s : State)
    (h : env.hal s.halCalls = true) :
    HAL_SPI_Transmit env data s = (true, s.adv 0 1 data.length data) := by
  simp [HAL_SPI_Transmit, h, State.adv]

theorem HAL_SPI_Transmit_fail (env : Env) (data : List Nat) (s : State)
    (h : env.hal s.halCalls = false) :
    HAL_SPI_Transmit env data s = (false, s.adv 0 1 0 []) := by
  simp [HAL_SPI_Transmit, h, State.adv]

theorem exchange_ok (env : Env) (t : Nat) (rx : List Nat) (s : State)
    (h : env.hal s.halCalls = true) :
    HAL_SPI_TransmitReceive env [t] rx s = (true, [env.miso s.clk % 256], s.adv 0 1 1 [t]) := by
  simp [HAL_SPI_TransmitReceive, h, State.adv, show List.range 1 = [0] from rfl]

theorem exchange_fail (env : Env) (tx rx : List Nat) (s : State)
    (h : env.hal s.halCalls = false) :
    HAL_SPI_TransmitReceive env tx rx s = (false, rx, s.adv 0 1 0 []) := by
  simp [HAL_SPI_TransmitReceive, h, State.adv]

@[simp] theorem sub32_mod (a b : Nat) : sub32 (a % 4294967296) b = sub32 a b := by
  simp [sub32]

@[simp] theorem sub32_mod_right (a b : Nat) : sub32 a (b % 4294967296) = sub32 a b := by
  simp [sub32]

theorem sub32_le (a b : Nat) (h : b ≤ a) : sub32 a b ≤ a - b := by
  unfold sub32
  omega

/-! ## `SDCardWaitForReady` -/

theorem SDCardWaitForReady_first (env : Env) (fuel timeout : Nat) (s : State)
    (hopen : sub32 (env.tick (s.tickCalls + 1)) (env.tick s.tickCalls) < timeout)
    (hhal : env.hal s.halCalls = true) (hrx : env.miso s.clk % 256 = 0xFF) :
    SDCardWaitForReady env (fuel + 1) timeout s = some (SD_OK, s.adv 2 1 1 [0xFF]) := by
  simp [SDCardWaitForReady, SDCardWaitForReady.loop, HAL_GetTick_eq, sub32_mod, hopen,
    exchange_ok, hhal, hrx]

/-- While the card answers anything but 0xFF and the window is open, the loop
keeps polling; it returns `SD_TIMEOUT` at the first check that finds the window
closed, and runs out of fuel before that. -/
theorem SDCardWaitForReady.loop_busy (env : Env) (timeout ticks : Nat) :
    ∀ (k fuel rx_byte : Nat) (s : State), rx_byte ≠ 0xFF →
      (∀ i, s.clk ≤ i → env.miso i % 256 ≠ 0xFF) →
      (∀ j < k, sub32 (env.tick (s.tickCalls + j)) ticks < timeout) →
      timeout ≤ sub32 (env.tick (s.tickCalls + k)) ticks →
      (fuel ≤ k → SDCardWaitForReady.loop env timeout ticks fuel rx_byte s = none) ∧
      (k < fuel → ∃ s2, SDCardWaitForReady.loop env timeout ticks fuel rx_byte s
          = some (SD_TIMEOUT, s2) ∧ s2.tickCalls = s.tickCalls + k + 1 ∧
          s2.halCalls = s.halCalls + k ∧ s2.cs = s.cs ∧ s2.log = s.log ∧ s2.mem = s.mem ∧
          s2.trace = s.trace) := by
  intro k
  induction k with
  | zero =>
    intro fuel rx_byte s _ _ _ hclose
    constructor
    · intro hf
      have : fuel = 0 := by omega
      subst this
      rfl
    · intro hf
      obtain ⟨f, rfl⟩ : ∃ f, fuel = f + 1 := ⟨fuel - 1, by omega⟩
      have hc : ¬ sub32 (env.tick s.tickCalls) ticks < timeout := by simpa using hclose
      refine ⟨s.adv 1 0 0 [], ?_, by simp⟩
      simp [SDCardWaitForReady.loop, HAL_GetTick_eq, sub32_mod, hc]
  | succ k ih =>
    intro fuel rx_byte s hrx hm hopen hclose
    have h0 : sub32 (env.tick s.tickCalls) ticks < timeout := by simpa using hopen 0 (by omega)
    cases fuel with
    | zero => exact ⟨fun _ => rfl, fun h => absurd h (by omega)⟩
    | succ f =>
      cases hh : env.hal s.halCalls with
      | true =>
        have hb : env.miso s.clk % 256 ≠ 0xFF := hm _ (Nat.le_refl _)
        have step : SDCardWaitForReady.loop env timeout ticks (f + 1) rx_byte s =
            SDCardWaitForReady.loop env timeout ticks f (env.miso s.clk % 256)
              (s.adv 1 1 1 [0xFF]) := by
          simp [SDCardWaitForReady.loop, HAL_GetTick_eq, sub32_mod, h0, exchange_ok, hh, hb]
        rw [step]
        have := ih f (env.miso s.clk % 256) (s.adv 1 1 1 [0xFF]) hb
          (fun i hi => hm i (by simp at hi; omega))
          (fun j hj => by
            have := hopen (j + 1) (by omega)
            simpa [Nat.add_assoc, Nat.add_comm 1 j] using this)
          (by simpa [Nat.add_assoc, Nat.add_comm 1 k] using hclose)
        refine ⟨fun hf => this.1 (by omega), fun hf => ?_⟩
        obtain ⟨s2, h1, h2, h3, h4⟩ := this.2 (by omega)
        refine ⟨s2, h1, ?_, ?_, ?_⟩
        · simp at h2; omega
        · simp at h3; omega
        · simpa using h4
      | false =>
        have step : SDCardWaitForReady.loop env timeout ticks (f + 1) rx_byte s =
            SDCardWaitForReady.loop env timeout ticks f rx_byte (s.adv 1 1 0 []) := by
          simp [SDCardWaitForReady.loop, HAL_GetTick_eq, sub32_mod, h0, exchange_fail, hh, hrx]
        rw [step]
        have := ih f rx_byte (s.adv 1 1 0 []) hrx
          (fun i hi => hm i (by simp at hi; omega))
          (fun j hj => by
            have := hopen (j + 1) (by omega)
            simpa [Nat.add_assoc, Nat.add_comm 1 j] using this)
          (by simpa [Nat.add_assoc, Nat.add_comm 1 k] using hclose)
        refine ⟨fun hf => this.1 (by omega), fun hf => ?_⟩
        obtain ⟨s2, h1, h2, h3, h4⟩ := this.2 (by omega)
        refine ⟨s2, h1, ?_, ?_, ?_⟩
        · simp at h2; omega
        · simp at h3; omega
        · simpa using h4


/-! ## `SDCardGetR1`, `SDCardWaitToken`, data transfer -/

theorem SDCardGetR1.loop_reply (env : Env) (timeout ticks r : Nat) (hr : r ≠ 0xFF) :
    ∀ (k fuel r1 : Nat) (s : State),
      (∀ j ≤ k, sub32 (env.tick (s.tickCalls + j)) ticks < timeout) →
      (∀ j ≤ k, env.hal (s.halCalls + j) = true) →
      (∀ j < k, env.miso (s.clk + j) % 256 = 0xFF) →
      env.miso (s.clk + k) % 256 = r → k < fuel →
      SDCardGetR1.loop env timeout ticks fuel r1 s
        = some (r, s.adv (k + 1) (k + 1) (k + 1) (List.replicate (k + 1) 0xFF)) := by
  intro k
  induction k with
  | zero =>
    intro fuel r1 s hopen hhal _ hlast hf
    obtain ⟨f, rfl⟩ : ∃ f, fuel = f + 1 := ⟨fuel - 1, by omega⟩
    have h0 : sub32 (env.tick s.tickCalls) ticks < timeout := by simpa using hopen 0 (by omega)
    have hh : env.hal s.halCalls = true := by simpa using hhal 0 (by omega)
    have hl : env.miso s.clk % 256 = r := by simpa using hlast
    simp [SDCardGetR1.loop, HAL_GetTick_eq, h0, exchange_ok, hh, hl, hr]
  | succ k ih =>
    intro fuel r1 s hopen hhal hidle hlast hf
    obtain ⟨f, rfl⟩ : ∃ f, fuel = f + 1 := ⟨fuel - 1, by omega⟩
    have h0 : sub32 (env.tick s.tickCalls) ticks < timeout := by simpa using hopen 0 (by omega)
    have hh : env.hal s.halCalls = true := by simpa using hhal 0 (by omega)
    have hl : env.miso s.clk % 256 = 0xFF := by simpa using hidle 0 (by omega)
    have step : SDCardGetR1.loop env timeout ticks (f + 1) r1 s =
        SDCardGetR1.loop env timeout ticks f 0xFF (s.adv 1 1 1 [0xFF]) := by
      simp [SDCardGetR1.loop, HAL_GetTick_eq, h0, exchange_ok, hh, hl]
    rw [step, ih f 0xFF (s.adv 1 1 1 [0xFF])
      (fun j hj => by simpa [Nat.add_assoc, Nat.add_comm 1 j] using hopen (j + 1) (by omega))
      (fun j hj => by simpa [Nat.add_assoc, Nat.add_comm 1 j] using hhal (j + 1) (by omega))
      (fun j hj => by simpa [Nat.add_assoc, Nat.add_comm 1 j] using hidle (j + 1) (by omega))
      (by simpa [Nat.add_assoc, Nat.add_comm 1 k] using hlast) (by omega)]
    simp [Nat.add_comm 1 (k + 1), List.replicate_succ]

theorem SDCardGetR1_reply (env : Env) (timeout r k fuel : Nat) (s : State) (hr : r ≠ 0xFF)
    (hopen : ∀ j ≤ k, sub32 (env.tick (s.tickCalls + 1 + j)) (env.tick s.tickCalls) < timeout)
    (hhal : ∀ j ≤ k, env.hal (s.halCalls + j) = true)
    (hidle : ∀ j < k, env.miso (s.clk + j) % 256 = 0xFF)
    (hlast : env.miso (s.clk + k) % 256 = r) (hf : k < fuel) :
    SDCardGetR1 env fuel timeout s
      = some (SDCardGetR1.decode r,
          s.adv (k + 2) (k + 1) (k + 1) (List.replicate (k + 1) 0xFF)) := by
  unfold SDCardGetR1
  simp only [HAL_GetTick_eq]
  rw [SDCardGetR1.loop_reply env timeout _ r hr k fuel 0xFF (s.adv 1 0 0 [])
    (fun j hj => by simpa using hopen j hj) (fun j hj => by simpa using hhal j hj)
    (fun j hj => by simpa using hidle j hj) (by simpa using hlast) hf]
  simp [Nat.add_comm 1 (k + 1)]

theorem SDCardWaitToken.loop_token (env : Env) (token timeout ticks : Nat) (ht : token ≠ 0xFF) :
    ∀ (k fuel recv : Nat) (s : State),
      (∀ j ≤ k, sub32 (env.tick (s.tickCalls + j)) ticks < timeout) →
      (∀ j ≤ k, env.hal (s.halCalls + j) = true) →
      (∀ j < k, env.miso (s.clk + j) % 256 = 0xFF) →
      env.miso (s.clk + k) % 256 = token → k < fuel →
      SDCardWaitToken.loop env token timeout ticks fuel recv s
        = some (SD_OK, s.adv (k + 1) (k + 1) (k + 1) (List.replicate (k + 1) 0xFF)) := by
  intro k
  induction k with
  | zero =>
    intro fuel recv s hopen hhal _ hlast hf
    obtain ⟨f, rfl⟩ : ∃ f, fuel = f + 1 := ⟨fuel - 1, by omega⟩
    have h0 : sub32 (env.tick s.tickCalls) ticks < timeout := by simpa using hopen 0 (by omega)
    have hh : env.hal s.halCalls = true := by simpa using hhal 0 (by omega)
    have hl : env.miso s.clk % 256 = token := by simpa using hlast
    simp [SDCardWaitToken.loop, HAL_GetTick_eq, h0, exchange_ok, hh, hl]
  | succ k ih =>
    intro fuel recv s hopen hhal hidle hlast hf
    obtain ⟨f, rfl⟩ : ∃ f, fuel = f + 1 := ⟨fuel - 1, by omega⟩
    have h0 : sub32 (env.tick s.tickCalls) ticks < timeout := by simpa using hopen 0 (by omega)
    have hh : env.hal s.halCalls = true := by simpa using hhal 0 (by omega)
    have hl : env.miso s.clk % 256 = 0xFF := by simpa using hidle 0 (by omega)
    have step : SDCardWaitToken.loop env token timeout ticks (f + 1) recv s =
        SDCardWaitToken.loop env token timeout ticks f 0xFF (s.adv 1 1 1 [0xFF]) := by
      simp [SDCardWaitToken.loop, HAL_GetTick_eq, h0, exchange_ok, hh, hl, Ne.symm ht]
    rw [step, ih f 0xFF (s.adv 1 1 1 [0xFF])
      (fun j hj => by simpa [Nat.add_assoc, Nat.add_comm 1 j] using hopen (j + 1) (by omega))
      (fun j hj => by simpa [Nat.add_assoc, Nat.add_comm 1 j] using hhal (j + 1) (by omega))
      (fun j hj => by simpa [Nat.add_assoc, Nat.add_comm 1 j] using hidle (j + 1) (by omega))
      (by simpa [Nat.add_assoc, Nat.add_comm 1 k] using hlast) (by omega)]
    simp [Nat.add_comm 1 (k + 1), List.replicate_succ]

theorem SDCardWaitToken_token (env : Env) (token timeout k fuel : Nat) (s : State)
    (ht : token ≠ 0xFF)
    (hopen : ∀ j ≤ k, sub32 (env.tick (s.tickCalls + 1 + j)) (env.tick s.tickCalls) < timeout)
    (hhal : ∀ j ≤ k, env.hal (s.halCalls + j) = true)
    (hidle : ∀ j < k, env.miso (s.clk + j) % 256 = 0xFF)
    (hlast : env.miso (s.clk + k) % 256 = token) (hf : k < fuel) :
    SDCardWaitToken env fuel token timeout s
      = some (SD_OK, s.adv (k + 2) (k + 1) (k + 1) (List.replicate (k + 1) 0xFF)) := by
  unfold SDCardWaitToken
  simp only [HAL_GetTick_eq]
  rw [SDCardWaitToken.loop_token env token timeout _ ht k fuel 0x00 (s.adv 1 0 0 [])
    (fun j hj => by simpa using hopen j hj) (fun j hj => by simpa using hhal j hj)
    (fun j hj => by simpa using hidle j hj) (by simpa using hlast) hf]
  simp [Nat.add_comm 1 (k + 1)]

theorem SDCardTransmitData_ok (env : Env) (data : List Nat) (s : State)
    (h : env.hal s.halCalls = true) :
    SDCardTransmitData env data s = (SD_OK, s.adv 0 1 data.length data) := by
  simp [SDCardTransmitData, HAL_SPI_Transmit_ok, h]

theorem SDCardReceiveData.loop_ok (env : Env) :
    ∀ (n : Nat) (acc : List Nat) (s : State), (∀ j < n, env.hal (s.halCalls + j) = true) →
      SDCardReceiveData.loop env n acc s
        = (SD_OK, acc ++ (List.range n).map (fun i => env.miso (s.clk + i) % 256),
            s.adv 0 n n (List.replicate n 0xFF)) := by
  intro n
  induction n with
  | zero =>
    intro acc s _
    simp [SDCardReceiveData.loop, State.adv]
  | succ n ih =>
    intro acc s hhal
    have hh : env.hal s.halCalls = true := by simpa using hhal 0 (by omega)
    have step : SDCardReceiveData.loop env (n + 1) acc s =
        SDCardReceiveData.loop env n (acc ++ [env.miso s.clk % 256]) (s.adv 0 1 1 [0xFF]) := by
      simp [SDCardReceiveData.loop, exchange_ok, hh]
    rw [step, ih _ _ (fun j hj => by
      simpa [Nat.add_assoc, Nat.add_comm 1 j] using hhal (j + 1) (by omega))]
    simp [List.range_succ_eq_map, List.replicate_succ, Nat.add_comm 1 n, Function.comp_def,
      Nat.add_assoc, Nat.add_comm 1]

theorem SDCardReceiveData_ok (env : Env) (n : Nat) (s : State)
    (hhal : ∀ j < n, env.hal (s.halCalls + j) = true) :
    SDCardReceiveData env n s
      = (SD_OK, (List.range n).map (fun i => env.miso (s.clk + i) % 256),
          s.adv 0 n n (List.replicate n 0xFF)) := by
  simp [SDCardReceiveData, SDCardReceiveData.loop_ok env n [] s hhal]


/-! ## Single-block read -/

theorem State.store_mem_inside (s : State) (p : Nat) (data : List Nat) (i : Nat)
    (hi : i < data.length) : (s.store p data).mem (p + i) = data.getD i 0 := by
  simp [State.store, hi]

theorem State.store_mem_outside (s : State) (p : Nat) (data : List Nat) (a : Nat)
    (ha : a < p ∨ p + data.length ≤ a) : (s.store p data).mem a = s.mem a := by
  have : ¬ (p ≤ a ∧ a - p < data.length) := by omega
  simp [State.store, this]

/-- C1: success postcondition of `SDCardReadBlock`.  When every transport call
succeeds, the tick source stays inside each of the three 1000 ms windows, the
first polled byte is 0xFF, the bytes after the six frame bytes are `k1` times
0xFF and then 0x00, followed by `k2` times 0xFF and the start token 0xFE, then
512 bytes `D` and two more bytes, the function returns `SD_OK`, the buffer at
`p_data` holds `D` in wire order, memory outside the buffer is untouched, and
the bus has advanced exactly up to and including the two trailing bytes. -/
theorem SDCardReadBlock_success (env : Env) (fuel p_data addr k1 k2 : Nat) (s : State)
    (D : Nat → Nat)
    (hhal : ∀ i, s.halCalls ≤ i → env.hal i = true)
    (hw1 : sub32 (env.tick (s.tickCalls + 1)) (env.tick s.tickCalls) < 1000)
    (hw2 : ∀ j ≤ k1,
      sub32 (env.tick (s.tickCalls + 3 + j)) (env.tick (s.tickCalls + 2)) < 1000)
    (hw3 : ∀ j ≤ k2,
      sub32 (env.tick (s.tickCalls + k1 + 5 + j)) (env.tick (s.tickCalls + k1 + 4)) < 1000)
    (hready : env.miso s.clk % 256 = 0xFF)
    (hidle1 : ∀ j < k1, env.miso (s.clk + 7 + j) % 256 = 0xFF)
    (hr1 : env.miso (s.clk + 7 + k1) % 256 = 0x00)
    (hidle2 : ∀ j < k2, env.miso (s.clk + 8 + k1 + j) % 256 = 0xFF)
    (htok : env.miso (s.clk + 8 + k1 + k2) % 256 = 0xFE)
    (hD : ∀ i < 512, env.miso (s.clk + 9 + k1 + k2 + i) % 256 = D i)
    (hf1 : k1 < fuel) (hf2 : k2 < fuel) :
    ∃ s2, SDCardReadBlock env fuel p_data addr s = some (SD_OK, s2) ∧
      (∀ i < 512, s2.mem (p_data + i) = D i) ∧
      (∀ a, a < p_data ∨ p_data + 512 ≤ a → s2.mem a = s.mem a) ∧
      s2.clk = s.clk + k1 + k2 + 523 ∧ s2.cs = true := by
  obtain ⟨f, rfl⟩ : ∃ f, fuel = f + 1 := ⟨fuel - 1, by omega⟩
  let s1 := SDSPISelect (s.record (.read p_data addr))
  have e1 : SDCardWaitForReady env (f + 1) 1000 s1 = some (SD_OK, s1.adv 2 1 1 [0xFF]) :=
    SDCardWaitForReady_first env f 1000 s1 hw1 (hhal _ (Nat.le_refl _)) hready
  have e2 : ∀ fr : List Nat, fr.length = 6 →
      SDCardTransmitData env fr (s1.adv 2 1 1 [0xFF]) = (SD_OK, s1.adv 2 2 7 ([0xFF] ++ fr)) := by
    intro fr hfr
    rw [SDCardTransmitData_ok env fr _ (hhal _ (by show s.halCalls ≤ s.halCalls + 1; omega))]
    simp [hfr]
  have e3 : ∀ tx, SDCardGetR1 env (f + 1) 1000 (s1.adv 2 2 7 tx)
      = some (0, s1.adv (k1 + 4) (k1 + 3) (k1 + 8) (tx ++ List.replicate (k1 + 1) 0xFF)) := by
    intro tx
    rw [SDCardGetR1_reply env 1000 0 k1 (f + 1) _ (by norm_num)
      (fun j hj => by
        have := hw2 j hj
        simpa [s1, Nat.add_assoc] using this)
      (fun j hj => hhal _ (by show s.halCalls ≤ s.halCalls + 2 + j; omega))
      (fun j hj => by simpa [s1, Nat.add_assoc] using hidle1 j hj)
      (by simpa [s1, Nat.add_assoc] using hr1) hf1]
    simp [SDCardGetR1.decode, Nat.add_comm, Nat.add_left_comm]
  have e4 : ∀ tx, SDCardWaitToken env (f + 1) SD_TOKEN_17 1000
        (s1.adv (k1 + 4) (k1 + 3) (k1 + 8) tx)
      = some (SD_OK, s1.adv (k1 + k2 + 6) (k1 + k2 + 4) (k1 + k2 + 9)
          (tx ++ List.replicate (k2 + 1) 0xFF)) := by
    intro tx
    rw [SDCardWaitToken_token env SD_TOKEN_17 1000 k2 (f + 1) _ (by decide)
      (fun j hj => by
        have := hw3 j hj
        simpa [s1, Nat.add_assoc] using this)
      (fun j hj => hhal _ (by show s.halCalls ≤ s.halCalls + (k1 + 3) + j; omega))
      (fun j hj => by
        have := hidle2 j hj
        have e : s.clk + (k1 + 8) + j = s.clk + 8 + k1 + j := by omega
        show env.miso (s.clk + (k1 + 8) + j) % 256 = 0xFF
        rw [e]; exact this)
      (by
        have e : s.clk + (k1 + 8) + k2 = s.clk + 8 + k1 + k2 := by omega
        show env.miso (s.clk + (k1 + 8) + k2) % 256 = SD_TOKEN_17
        rw [e]; exact htok) hf2]
    have a1 : k1 + 4 + (k2 + 2) = k1 + k2 + 6 := by omega
    have a2 : k1 + 3 + (k2 + 1) = k1 + k2 + 4 := by omega
    have a3 : k1 + 8 + (k2 + 1) = k1 + k2 + 9 := by omega
    simp [a1, a2, a3]
  have e5 : ∀ tx, SDCardReceiveData env SD_BLOCK_SIZE
        (s1.adv (k1 + k2 + 6) (k1 + k2 + 4) (k1 + k2 + 9) tx)
      = (SD_OK,
          (List.range SD_BLOCK_SIZE).map (fun i => env.miso (s.clk + (k1 + k2 + 9) + i) % 256),
          s1.adv (k1 + k2 + 6) (k1 + k2 + 516) (k1 + k2 + 521)
            (tx ++ List.replicate SD_BLOCK_SIZE 0xFF)) := by
    intro tx
    rw [SDCardReceiveData_ok env SD_BLOCK_SIZE _
      (fun j _ => hhal _ (by show s.halCalls ≤ s.halCalls + (k1 + k2 + 4) + j; omega))]
    simp only [State.adv_adv, State.adv_clk]
    have a1 : k1 + k2 + 4 + SD_BLOCK_SIZE = k1 + k2 + 516 := by simp only [SD_BLOCK_SIZE]
    have a2 : k1 + k2 + 9 + SD_BLOCK_SIZE = k1 + k2 + 521 := by simp only [SD_BLOCK_SIZE]
    rw [a1, a2]
    rfl
  have e6 : ∀ tx (q : Nat) (d : List Nat),
      (SDCardReceiveData env 2
        ((s1.adv (k1 + k2 + 6) (k1 + k2 + 516) (k1 + k2 + 521) tx).store q d)).1 = SD_OK ∧
      (SDCardReceiveData env 2
        ((s1.adv (k1 + k2 + 6) (k1 + k2 + 516) (k1 + k2 + 521) tx).store q d)).2.2
        = ((s1.adv (k1 + k2 + 6) (k1 + k2 + 516) (k1 + k2 + 521) tx).store q d).adv
          0 2 2 [0xFF, 0xFF] := by
    intro tx q d
    rw [SDCardReceiveData_ok env 2 _
      (fun j _ => hhal _ (by show s.halCalls ≤ s.halCalls + (k1 + k2 + 516) + j; omega))]
    exact ⟨rfl, rfl⟩
  refine ⟨SDSPIDeselect (((s1.adv (k1 + k2 + 6) (k1 + k2 + 516) (k1 + k2 + 521)
      ([0xFF] ++ (sd_card_frame_t.bytes
        { command := SD_CMD17_READ_SINGLE_BLOCK, arg := addr, crc7 := 0xFF }) ++
        List.replicate (k1 + 1) 0xFF ++ List.replicate (k2 + 1) 0xFF ++
        List.replicate SD_BLOCK_SIZE 0xFF)).store p_data
      ((List.range SD_BLOCK_SIZE).map (fun i => env.miso (s.clk + (k1 + k2 + 9) + i) % 256))).adv
      0 2 2 [0xFF, 0xFF]), ?_, ?_, ?_, ?_, ?_⟩
  · simp only [SDCardReadBlock]
    rw [e1]
    simp only [ne_eq, not_true_eq_false, if_false]
    rw [e2 (sd_card_frame_t.bytes
      { command := SD_CMD17_READ_SINGLE_BLOCK, arg := addr, crc7 := 0xFF }) rfl]
    simp only [ne_eq, not_true_eq_false, if_false]
    rw [e3]
    simp only [ne_eq, not_true_eq_false, if_false]
    rw [e4]
    dsimp only
    rw [e5]
    dsimp only
    rw [if_neg (by simp), (e6 _ _ _).1, (e6 _ _ _).2, if_neg (by simp)]
  · intro i hi
    show (State.store _ p_data _).mem (p_data + i) = D i
    have hlen : i < ((List.range SD_BLOCK_SIZE).map
        (fun i => env.miso (s.clk + (k1 + k2 + 9) + i) % 256)).length := by
      simpa [SD_BLOCK_SIZE] using hi
    rw [State.store_mem_inside _ _ _ _ hlen, List.getD_eq_getElem?_getD,
      List.getElem?_eq_getElem hlen]
    simp only [List.getElem_map, List.getElem_range, Option.getD_some]
    rw [← hD i hi]; congr 2; omega
  · intro a ha
    show (State.store _ p_data _).mem a = s.mem a
    rw [State.store_mem_outside _ _ _ _ (by simpa [SD_BLOCK_SIZE] using ha)]
    rfl
  · show s.clk + (k1 + k2 + 521) + 2 = s.clk + k1 + k2 + 523
    omega
  · rfl

theorem SDCardReadBlock_success_witness :
    ∃ s2, SDCardReadBlock cardReadOk 3 0x20000000 5 State.init = some (SD_OK, s2) ∧
      (∀ i < 512, s2.mem (0x20000000 + i) = (7 * i + 3) % 256) ∧
      (∀ a, a < 0x20000000 ∨ 0x20000000 + 512 ≤ a → s2.mem a = State.init.mem a) ∧
      s2.clk = State.init.clk + 1 + 2 + 523 ∧ s2.cs = true :=
  SDCardReadBlock_success cardReadOk 3 0x20000000 5 1 2 State.init (fun i => (7 * i + 3) % 256)
    (fun _ _ => rfl) (by decide) (by decide) (by decide) (by decide) (by decide) (by decide)
    (by decide) (by decide)
    (by
      intro i hi
      have h1 : ¬ (State.init.clk + 9 + 1 + 2 + i < 8) := by simp [State.init]; omega
      have h2 : ¬ (State.init.clk + 9 + 1 + 2 + i = 8) := by simp [State.init]; omega
      have h3 : ¬ (State.init.clk + 9 + 1 + 2 + i < 11) := by simp [State.init]; omega
      have h4 : ¬ (State.init.clk + 9 + 1 + 2 + i = 11) := by simp [State.init]; omega
      have h5 : State.init.clk + 9 + 1 + 2 + i < 524 := by simp [State.init]; omega
      have h6 : State.init.clk + 9 + 1 + 2 + i - 12 = i := by simp [State.init]
      simp only [cardReadOk, h1, h2, h3, h4, h5, h6, if_true, if_false]
      omega)
    (by decide) (by decide)


/-! ## Command frames of the block operations -/

/-- C2: what the block commands really put on the wire for the address
0x12345678.  Against a card that is ready at once and answers R1 = 0x04, each
operation sends one ready-poll byte, the six frame bytes and one R1-poll byte;
the four argument bytes of the frame are 0x78 0x56 0x34 0x12, least significant
byte first, not 0x12 0x34 0x56 0x78. -/
theorem block_command_frames_on_wire :
    (SDCardReadBlock cardIllegal 1 0 0x12345678 State.init).map (fun r => r.2.mosi)
      = some [0xFF, 0x51, 0x78, 0x56, 0x34, 0x12, 0xFF, 0xFF] ∧
    (SDCardWriteBlock cardIllegal 1 0 0x12345678 State.init).map (fun r => r.2.mosi)
      = some [0xFF, 0x58, 0x78, 0x56, 0x34, 0x12, 0xFF, 0xFF] ∧
    (SDCardStartMultipleWriting cardIllegal 1 0x12345678 State.init).map (fun r => r.2.mosi)
      = some [0xFF, 0x59, 0x78, 0x56, 0x34, 0x12, 0xFF, 0xFF] := by
  decide


/-! ## R1 decoding -/

set_option maxRecDepth 100000 in
theorem SDCardGetR1.decode_highest : ∀ r < 256,
    (SDCardGetR1.decode r = 0x00 ↔ r = 0x00) ∧
    (r ≠ 0x00 → ∃ i < 8, SDCardGetR1.decode r = 2 ^ i ∧ r.testBit i = true ∧
      ∀ j < 8, i < j → r.testBit j = false) := by
  decide

/-- C4: R1 priority decoding.  When the first byte other than 0xFF that
`SDCardGetR1` receives inside its window is `r`, the function returns 0x00
exactly when `r` is 0x00, and otherwise the flag `2 ^ i` of the highest set bit
`i` of `r`; the flags in priority order busy, parameter error, address error,
erase sequence error, command CRC error, illegal command, erase reset, idle
state are the bits 7 down to 0, and `r = 0x05` decodes to illegal command. -/
theorem SDCardGetR1_priority (env : Env) (timeout r k fuel : Nat) (s : State)
    (hopen : ∀ j ≤ k, sub32 (env.tick (s.tickCalls + 1 + j)) (env.tick s.tickCalls) < timeout)
    (hhal : ∀ j ≤ k, env.hal (s.halCalls + j) = true)
    (hidle : ∀ j < k, env.miso (s.clk + j) % 256 = 0xFF)
    (hlast : env.miso (s.clk + k) % 256 = r) (hr : r ≠ 0xFF) (hf : k < fuel) :
    ∃ v s2, SDCardGetR1 env fuel timeout s = some (v, s2) ∧
      (v = 0x00 ↔ r = 0x00) ∧
      (r ≠ 0x00 → ∃ i < 8, v = 2 ^ i ∧ r.testBit i = true ∧
        ∀ j < 8, i < j → r.testBit j = false) ∧
      (r = 0x05 → v = R1_ILLEGAL_COMMAND) ∧
      [R1_BUSY, R1_PARAMETER_ERROR, R1_ADDRESS_ERROR, R1_ERASE_SEQUENCE_ERROR,
        R1_COMMAND_CRC_ERROR, R1_ILLEGAL_COMMAND, R1_ERASE_RESET, R1_IN_IDLE_STATE]
        = [2 ^ 7, 2 ^ 6, 2 ^ 5, 2 ^ 4, 2 ^ 3, 2 ^ 2, 2 ^ 1, 2 ^ 0] := by
  have hlt : r < 256 := by rw [← hlast]; exact Nat.mod_lt _ (by norm_num)
  have h := SDCardGetR1.decode_highest r hlt
  refine ⟨SDCardGetR1.decode r, _,
    SDCardGetR1_reply env timeout r k fuel s hr hopen hhal hidle hlast hf, h.1, h.2, ?_, by decide⟩
  intro h5
  subst h5
  decide

theorem SDCardGetR1_priority_witness :
    ∃ v s2, SDCardGetR1 (cardR1 0x05) 3 1000 State.init = some (v, s2) ∧
      (v = 0x00 ↔ 0x05 = 0x00) ∧
      ((0x05 : Nat) ≠ 0x00 → ∃ i < 8, v = 2 ^ i ∧ (0x05 : Nat).testBit i = true ∧
        ∀ j < 8, i < j → (0x05 : Nat).testBit j = false) ∧
      (0x05 = 0x05 → v = R1_ILLEGAL_COMMAND) ∧
      [R1_BUSY, R1_PARAMETER_ERROR, R1_ADDRESS_ERROR, R1_ERASE_SEQUENCE_ERROR,
        R1_COMMAND_CRC_ERROR, R1_ILLEGAL_COMMAND, R1_ERASE_RESET, R1_IN_IDLE_STATE]
        = [2 ^ 7, 2 ^ 6, 2 ^ 5, 2 ^ 4, 2 ^ 3, 2 ^ 2, 2 ^ 1, 2 ^ 0] :=
  SDCardGetR1_priority (cardR1 0x05) 1000 0x05 2 3 State.init (by decide) (by decide)
    (by decide) (by decide) (by decide) (by decide)

/-! ## Ready wait -/

/-- C8: outcomes of `SDCardWaitForReady`, for every timeout.  If a first byte is
polled (the window is open at the first check and the exchange succeeds) and
it is 0xFF, the function returns `SD_OK` after exactly one SPI exchange.  If
every byte the card sends is a fixed value other than 0xFF and the elapsed
tick count (modulo 2^32) is below the timeout for the first `k` checks and not
below it at the next one, the function returns `SD_TIMEOUT`. -/
theorem SDCardWaitForReady_outcomes (env : Env) (timeout : Nat) (s : State) :
    (sub32 (env.tick (s.tickCalls + 1)) (env.tick s.tickCalls) < timeout →
      env.hal s.halCalls = true → env.miso s.clk % 256 = 0xFF →
      ∀ fuel, 0 < fuel → ∃ s2, SDCardWaitForReady env fuel timeout s = some (SD_OK, s2) ∧
        s2.halCalls = s.halCalls + 1 ∧ s2.clk = s.clk + 1) ∧
    (∀ v k : Nat, v % 256 ≠ 0xFF → (∀ i, s.clk ≤ i → env.miso i = v) →
      (∀ j < k, sub32 (env.tick (s.tickCalls + 1 + j)) (env.tick s.tickCalls) < timeout) →
      timeout ≤ sub32 (env.tick (s.tickCalls + 1 + k)) (env.tick s.tickCalls) →
      ∀ fuel, k < fuel → ∃ s2, SDCardWaitForReady env fuel timeout s = some (SD_TIMEOUT, s2)) := by
  constructor
  · intro hopen hhal hrx fuel hfuel
    obtain ⟨f, rfl⟩ : ∃ f, fuel = f + 1 := ⟨fuel - 1, by omega⟩
    exact ⟨_, SDCardWaitForReady_first env f timeout s hopen hhal hrx, rfl, rfl⟩
  · intro v k hv hm hopen hclose fuel hfuel
    have h := (SDCardWaitForReady.loop_busy env timeout (env.tick s.tickCalls % 2 ^ 32) k fuel
      0x00 (s.adv 1 0 0 []) (by norm_num)
      (fun i hi => by rw [hm i (by simpa using hi)]; exact hv)
      (fun j hj => by simpa using hopen j hj) (by simpa using hclose)).2 hfuel
    obtain ⟨s2, h2, _⟩ := h
    exact ⟨s2, by simpa [SDCardWaitForReady, HAL_GetTick_eq] using h2⟩

theorem SDCardWaitForReady_outcomes_witness :
    (∃ s2, SDCardWaitForReady cardReadOk 1 1000 State.init = some (SD_OK, s2) ∧
      s2.halCalls = State.init.halCalls + 1 ∧ s2.clk = State.init.clk + 1) ∧
    (∃ s2, SDCardWaitForReady (cardBusy 0x00 400) 3 1000 State.init = some (SD_TIMEOUT, s2)) :=
  ⟨(SDCardWaitForReady_outcomes cardReadOk 1000 State.init).1 (by decide) (by decide)
      (by decide) 1 (by decide),
    (SDCardWaitForReady_outcomes (cardBusy 0x00 400) 1000 State.init).2 0x00 2 (by decide)
      (fun _ _ => rfl) (by decide) (by decide) 3 (by decide)⟩


/-! ## Single-block write -/

theorem State.load_length (s : State) (p n : Nat) : (s.load p n).length = n := by
  simp [State.load]

/-- The run of `SDCardWriteBlock` up to the test of the data-response byte: with
the ready wait, the frame, R1 = 0x00, the three transmissions and the
reception of the response byte `d` all succeeding, what is left of the
function is the test of `d` and the final ready wait. -/
theorem SDCardWriteBlock_upto_response (env : Env) (fuel p_data addr k1 : Nat) (s : State)
    (hhal : ∀ i, s.halCalls ≤ i → i < s.halCalls + k1 + 7 → env.hal i = true)
    (hw1 : sub32 (env.tick (s.tickCalls + 1)) (env.tick s.tickCalls) < 1000)
    (hw2 : ∀ j ≤ k1,
      sub32 (env.tick (s.tickCalls + 3 + j)) (env.tick (s.tickCalls + 2)) < 1000)
    (hready : env.miso s.clk % 256 = 0xFF)
    (hidle1 : ∀ j < k1, env.miso (s.clk + 7 + j) % 256 = 0xFF)
    (hr1 : env.miso (s.clk + 7 + k1) % 256 = 0x00)
    (hf1 : k1 < fuel) :
    ∃ s7 : State, s7.clk = s.clk + k1 + 524 ∧ s7.halCalls = s.halCalls + k1 + 7 ∧
      SDCardWriteBlock env fuel p_data addr s =
        if env.miso (s.clk + k1 + 523) % 256 &&& SD_WRITE_RESPONSE_MASK
            ≠ SD_WRITE_RESPONSE_ACCEPTED then some (SD_ERROR, s7)
        else
          match SDCardWaitForReady env fuel 1000 s7 with
          | none => none
          | some (st, s8) =>
            if st ≠ SD_OK then some (SD_TIMEOUT, s8) else some (SD_OK, SDSPIDeselect s8) := by
  obtain ⟨f, rfl⟩ : ∃ f, fuel = f + 1 := ⟨fuel - 1, by omega⟩
  let s1 := SDSPISelect (s.record (.write p_data addr))
  have e1 : SDCardWaitForReady env (f + 1) 1000 s1 = some (SD_OK, s1.adv 2 1 1 [0xFF]) :=
    SDCardWaitForReady_first env f 1000 s1 hw1
      (hhal _ (Nat.le_refl _) (by show s.halCalls < s.halCalls + k1 + 7; omega)) hready
  have e2 : ∀ fr : List Nat, fr.length = 6 →
      SDCardTransmitData env fr (s1.adv 2 1 1 [0xFF]) = (SD_OK, s1.adv 2 2 7 ([0xFF] ++ fr)) := by
    intro fr hfr
    rw [SDCardTransmitData_ok env fr _
      (hhal _ (by show s.halCalls ≤ s.halCalls + 1; omega)
        (by show s.halCalls + 1 < s.halCalls + k1 + 7; omega))]
    simp [hfr]
  have e3 : ∀ tx, SDCardGetR1 env (f + 1) 1000 (s1.adv 2 2 7 tx)
      = some (0, s1.adv (k1 + 4) (k1 + 3) (k1 + 8) (tx ++ List.replicate (k1 + 1) 0xFF)) := by
    intro tx
    rw [SDCardGetR1_reply env 1000 0 k1 (f + 1) _ (by norm_num)
      (fun j hj => by
        have := hw2 j hj
        simpa [s1, Nat.add_assoc] using this)
      (fun j hj => hhal _ (by show s.halCalls ≤ s.halCalls + 2 + j; omega)
        (by show s.halCalls + 2 + j < s.halCalls + k1 + 7; omega))
      (fun j hj => by simpa [s1, Nat.add_assoc] using hidle1 j hj)
      (by simpa [s1, Nat.add_assoc] using hr1) hf1]
    simp [SDCardGetR1.decode, Nat.add_comm, Nat.add_left_comm]
  have e4 : ∀ tx (data : List Nat) (h c h2 c2 : Nat), h < k1 + 6 → h + 1 = h2 →
      c + data.length = c2 →
      SDCardTransmitData env data (s1.adv (k1 + 4) h c tx)
        = (SD_OK, s1.adv (k1 + 4) h2 c2 (tx ++ data)) := by
    intro tx data h c h2 c2 hh hh2 hc2
    subst hh2 hc2
    rw [SDCardTransmitData_ok env data _
      (hhal _ (by show s.halCalls ≤ s.halCalls + h; omega)
        (by show s.halCalls + h < s.halCalls + k1 + 7; omega))]
    simp
  have e7 : ∀ tx, SDCardReceiveData env 1 (s1.adv (k1 + 4) (k1 + 6) (k1 + 523) tx)
      = (SD_OK, [env.miso (s.clk + k1 + 523) % 256],
          s1.adv (k1 + 4) (k1 + 7) (k1 + 524) (tx ++ [0xFF])) := by
    intro tx
    rw [SDCardReceiveData_ok env 1 _ (fun j hj =>
      hhal _ (by show s.halCalls ≤ s.halCalls + (k1 + 6) + j; omega)
        (by show s.halCalls + (k1 + 6) + j < s.halCalls + k1 + 7; omega))]
    have a : s1.clk + (k1 + 523) = s.clk + k1 + 523 := by
      show s.clk + (k1 + 523) = s.clk + k1 + 523
      omega
    have b : k1 + 523 + 1 = k1 + 524 := by omega
    have c : k1 + 6 + 1 = k1 + 7 := by omega
    simp only [State.adv_adv, State.adv_clk, show List.range 1 = [0] from rfl, List.map_cons,
      List.map_nil, List.replicate_one, Nat.zero_add, Nat.add_zero, b, c]
    rw [a]
  refine ⟨s1.adv (k1 + 4) (k1 + 7) (k1 + 524)
    ([0xFF] ++ (sd_card_frame_t.bytes
        { command := SD_CMD24_WRITE_BLOCK, arg := addr, crc7 := 0xFF }) ++
      List.replicate (k1 + 1) 0xFF ++ [SD_TOKEN_24] ++
      (s1.adv (k1 + 4) (k1 + 4) (k1 + 9)
        ([0xFF] ++ (sd_card_frame_t.bytes
          { command := SD_CMD24_WRITE_BLOCK, arg := addr, crc7 := 0xFF }) ++
        List.replicate (k1 + 1) 0xFF ++ [SD_TOKEN_24])).load p_data SD_BLOCK_SIZE ++
      [0xFF, 0xFF] ++ [0xFF]), ?_, ?_, ?_⟩
  · show s.clk + (k1 + 524) = s.clk + k1 + 524
    omega
  · show s.halCalls + (k1 + 7) = s.halCalls + k1 + 7
    omega
  · simp only [SDCardWriteBlock]
    rw [e1]
    dsimp only
    rw [if_neg (by simp), e2 (sd_card_frame_t.bytes
      { command := SD_CMD24_WRITE_BLOCK, arg := addr, crc7 := 0xFF }) rfl]
    dsimp only
    rw [if_neg (by simp), e3]
    dsimp only
    rw [if_neg (by simp), e4 _ [SD_TOKEN_24] (k1 + 3) (k1 + 8) (k1 + 4) (k1 + 9) (by omega) rfl rfl]
    dsimp only
    rw [if_neg (by simp), e4 _ _ (k1 + 4) (k1 + 9) (k1 + 5) (k1 + 521) (by omega) rfl
      (by rw [State.load_length]; simp only [SD_BLOCK_SIZE])]
    dsimp only
    rw [if_neg (by simp), e4 _ [0xFF, 0xFF] (k1 + 5) (k1 + 521) (k1 + 6) (k1 + 523) (by omega)
      rfl rfl]
    dsimp only
    rw [if_neg (by simp), e7]
    dsimp only
    rw [if_neg (by simp)]
    rfl

/-! ## The call trace -/

theorem exchange_trace (env : Env) (tx rx : List Nat) (s : State) :
    (HAL_SPI_TransmitReceive env tx rx s).2.2.trace = s.trace := by
  unfold HAL_SPI_TransmitReceive
  split <;> rfl

theorem SDCardTransmitData_trace (env : Env) (data : List Nat) (s : State) :
    (SDCardTransmitData env data s).2.trace = s.trace := by
  unfold SDCardTransmitData HAL_SPI_Transmit
  split <;> rfl

theorem SDCardReceiveData_trace (env : Env) (n : Nat) (s : State) :
    (SDCardReceiveData env n s).2.2.trace = s.trace := by
  unfold SDCardReceiveData
  generalize ([] : List Nat) = acc
  induction n generalizing acc s with
  | zero => rfl
  | succ n ih =>
    unfold SDCardReceiveData.loop
    dsimp only
    split
    · exact exchange_trace env _ _ s
    · rw [ih]; exact exchange_trace env _ _ s

theorem SDCardWaitForReady_trace (env : Env) (fuel timeout : Nat) (s s2 : State)
    (st : sd_card_status_t) (h : SDCardWaitForReady env fuel timeout s = some (st, s2)) :
    s2.trace = s.trace := by
  unfold SDCardWaitForReady at h
  have key : ∀ (fuel rx : Nat) (t : State),
      SDCardWaitForReady.loop env timeout (HAL_GetTick env s).1 fuel rx t = some (st, s2) →
      s2.trace = t.trace := by
    intro fuel
    induction fuel with
    | zero => intro rx t h; cases h
    | succ f ih =>
      intro rx t h
      unfold SDCardWaitForReady.loop at h
      dsimp only at h
      split at h
      · split at h
        · cases h; exact exchange_trace env _ _ _
        · rw [ih _ _ h]; exact exchange_trace env _ _ _
      · cases h; rfl
  exact key fuel _ (HAL_GetTick env s).2 h

theorem SDCardGetR1_trace (env : Env) (fuel timeout : Nat) (s s2 : State) (r : Nat)
    (h : SDCardGetR1 env fuel timeout s = some (r, s2)) : s2.trace = s.trace := by
  unfold SDCardGetR1 at h
  have key : ∀ (fuel r1 : Nat) (t : State) (x : Nat) (t2 : State),
      SDCardGetR1.loop env timeout (HAL_GetTick env s).1 fuel r1 t = some (x, t2) →
      t2.trace = t.trace := by
    intro fuel
    induction fuel with
    | zero => intro r1 t x t2 h; cases h
    | succ f ih =>
      intro r1 t x t2 h
      unfold SDCardGetR1.loop at h
      dsimp only at h
      split at h
      · split at h
        · cases h; exact exchange_trace env _ _ _
        · rw [ih _ _ _ _ h]; exact exchange_trace env _ _ _
      · cases h; rfl
  cases hl : SDCardGetR1.loop env timeout (HAL_GetTick env s).1 fuel 0xFF (HAL_GetTick env s).2 with
  | none => simp [hl] at h
  | some x =>
    obtain ⟨x1, t2⟩ := x
    simp [hl] at h
    rw [← h.2]
    exact key fuel _ (HAL_GetTick env s).2 _ _ hl

theorem SDCardWaitToken_trace (env : Env) (fuel token timeout : Nat) (s s2 : State)
    (st : sd_card_status_t) (h : SDCardWaitToken env fuel token timeout s = some (st, s2)) :
    s2.trace = s.trace := by
  unfold SDCardWaitToken at h
  have key : ∀ (fuel rx : Nat) (t : State),
      SDCardWaitToken.loop env token timeout (HAL_GetTick env s).1 fuel rx t = some (st, s2) →
      s2.trace = t.trace := by
    intro fuel
    induction fuel with
    | zero => intro rx t h; cases h
    | succ f ih =>
      intro rx t h
      unfold SDCardWaitToken.loop at h
      dsimp only at h
      split at h
      · split at h
        · cases h; exact exchange_trace env _ _ _
        · split at h
          · cases h; exact exchange_trace env _ _ _
          · rw [ih _ _ h]; exact exchange_trace env _ _ _
      · cases h; rfl
  exact key fuel _ (HAL_GetTick env s).2 h


theorem SDCardReadBlock_trace (env : Env) (fuel p_data addr : Nat) (s s2 : State)
    (st : sd_card_status_t) (h : SDCardReadBlock env fuel p_data addr s = some (st, s2)) :
    s2.trace = s.trace ++ [BlockCall.read p_data addr] := by
  unfold SDCardReadBlock at h
  dsimp only at h
  have h0 : (SDSPISelect (s.record (BlockCall.read p_data addr))).trace
      = s.trace ++ [BlockCall.read p_data addr] := rfl
  revert h
  generalize SDSPISelect (s.record (BlockCall.read p_data addr)) = s1 at h0 ⊢
  intro h
  rw [← h0]
  split at h
  · cases h
  · rename_i st1 t1 h1
    have e1 := SDCardWaitForReady_trace env _ _ _ _ _ h1
    split at h
    · cases h; exact e1
    · have e2 := SDCardTransmitData_trace env
        (sd_card_frame_t.bytes
          { command := SD_CMD17_READ_SINGLE_BLOCK, arg := addr, crc7 := 0xFF }) t1
      split at h
      · cases h; rw [e2, e1]
      · split at h
        · cases h
        · rename_i r1 t3 h3
          have e3 := SDCardGetR1_trace env _ _ _ _ _ h3
          split at h
          · cases h; rw [e3, e2, e1]
          · split at h
            · cases h
            · rename_i t4 h4
              cases h
              rw [SDCardWaitToken_trace env _ _ _ _ _ _ h4, e3, e2, e1]
            · rename_i t4 h4
              cases h
              rw [SDCardWaitToken_trace env _ _ _ _ _ _ h4, e3, e2, e1]
            · rename_i st4 t4 _ _ h4
              have e4 := SDCardWaitToken_trace env _ _ _ _ _ _ h4
              have e5 := SDCardReceiveData_trace env SD_BLOCK_SIZE t4
              split at h
              · cases h
                show (SDCardReceiveData env SD_BLOCK_SIZE t4).2.2.trace = _
                rw [e5, e4, e3, e2, e1]
              · split at h
                · cases h
                  rw [SDCardReceiveData_trace]
                  show (SDCardReceiveData env SD_BLOCK_SIZE t4).2.2.trace = _
                  rw [e5, e4, e3, e2, e1]
                · cases h
                  show (SDCardReceiveData env 2 _).2.2.trace = _
                  rw [SDCardReceiveData_trace]
                  show (SDCardReceiveData env SD_BLOCK_SIZE t4).2.2.trace = _
                  rw [e5, e4, e3, e2, e1]


theorem SDCardWriteBlock_trace (env : Env) (fuel p_data addr : Nat) (s s2 : State)
    (st : sd_card_status_t) (h : SDCardWriteBlock env fuel p_data addr s = some (st, s2)) :
    s2.trace = s.trace ++ [BlockCall.write p_data addr] := by
  unfold SDCardWriteBlock at h
  dsimp only at h
  have h0 : (SDSPISelect (s.record (BlockCall.write p_data addr))).trace
      = s.trace ++ [BlockCall.write p_data addr] := rfl
  revert h
  generalize SDSPISelect (s.record (BlockCall.write p_data addr)) = s1 at h0 ⊢
  intro h
  rw [← h0]
  split at h
  · cases h
  · rename_i st1 t1 h1
    have e1 := SDCardWaitForReady_trace env _ _ _ _ _ h1
    split at h
    · cases h; exact e1
    · split at h
      · cases h; rw [SDCardTransmitData_trace, e1]
      · split at h
        · cases h
        · rename_i r1 t3 h3
          have e3 := SDCardGetR1_trace env _ _ _ _ _ h3
          rw [SDCardTransmitData_trace, e1] at e3
          split at h
          · cases h; exact e3
          · split at h
            · cases h; rw [SDCardTransmitData_trace, e3]
            · split at h
              · cases h; rw [SDCardTransmitData_trace, SDCardTransmitData_trace, e3]
              · split at h
                · cases h
                  rw [SDCardTransmitData_trace, SDCardTransmitData_trace,
                    SDCardTransmitData_trace, e3]
                · split at h
                  · cases h
                    rw [SDCardReceiveData_trace, SDCardTransmitData_trace,
                      SDCardTransmitData_trace, SDCardTransmitData_trace, e3]
                  · split at h
                    · cases h
                      rw [SDCardReceiveData_trace, SDCardTransmitData_trace,
                        SDCardTransmitData_trace, SDCardTransmitData_trace, e3]
                    · split at h
                      · cases h
                      · rename_i st8 t8 h8
                        have e8 := SDCardWaitForReady_trace env _ _ _ _ _ h8
                        rw [SDCardReceiveData_trace, SDCardTransmitData_trace,
                          SDCardTransmitData_trace, SDCardTransmitData_trace, e3] at e8
                        split at h
                        · cases h; exact e8
                        · cases h; exact e8


/-! ## Multi-block operations -/

theorem SD_ReadData_chain (env : Env) (fuel : Nat) :
    ∀ (n p a : Nat) (s : State) (st : Nat → State), st 0 = s → a < 2 ^ 32 →
      (∀ i < n, SDCardReadBlock env fuel (p + 512 * i) ((a + i) % 2 ^ 32) (st i)
        = some (SD_OK, st (i + 1))) →
      SD_ReadData env fuel p a n s = some (SD_OK, st n) := by
  intro n
  induction n with
  | zero => intro p a s st h0 _ _; rw [← h0]; rfl
  | succ n ih =>
    intro p a s st h0 ha hstep
    have h1 := hstep 0 (by omega)
    simp only [Nat.mul_zero, Nat.add_zero, h0, Nat.mod_eq_of_lt ha] at h1
    unfold SD_ReadData
    rw [h1]
    dsimp only
    rw [if_neg (by simp)]
    exact ih (p + 512) ((a + 1) % 2 ^ 32) (st 1) (fun i => st (i + 1)) rfl
      (Nat.mod_lt _ (by norm_num)) (fun i hi => by
      have := hstep (i + 1) (by omega)
      rw [show p + 512 * (i + 1) = p + 512 + 512 * i by omega,
        show (a + (i + 1)) % 2 ^ 32 = ((a + 1) % 2 ^ 32 + i) % 2 ^ 32 by omega] at this
      exact this)

theorem SD_WriteData_chain (env : Env) (fuel : Nat) :
    ∀ (n p a : Nat) (s : State) (st : Nat → State), st 0 = s → a < 2 ^ 32 →
      (∀ i < n, SDCardWriteBlock env fuel (p + 512 * i) ((a + i) % 2 ^ 32) (st i)
        = some (SD_OK, st (i + 1))) →
      SD_WriteData env fuel p a n s = some (SD_OK, st n) := by
  intro n
  induction n with
  | zero => intro p a s st h0 _ _; rw [← h0]; rfl
  | succ n ih =>
    intro p a s st h0 ha hstep
    have h1 := hstep 0 (by omega)
    simp only [Nat.mul_zero, Nat.add_zero, h0, Nat.mod_eq_of_lt ha] at h1
    unfold SD_WriteData
    rw [h1]
    dsimp only
    rw [if_neg (by simp)]
    exact ih (p + 512) ((a + 1) % 2 ^ 32) (st 1) (fun i => st (i + 1)) rfl
      (Nat.mod_lt _ (by norm_num)) (fun i hi => by
      have := hstep (i + 1) (by omega)
      rw [show p + 512 * (i + 1) = p + 512 + 512 * i by omega,
        show (a + (i + 1)) % 2 ^ 32 = ((a + 1) % 2 ^ 32 + i) % 2 ^ 32 by omega] at this
      exact this)

theorem chain_trace (st : Nat → State) (c : Nat → BlockCall) :
    ∀ n, (∀ i < n, (st (i + 1)).trace = (st i).trace ++ [c i]) →
      (st n).trace = (st 0).trace ++ (List.range n).map c := by
  intro n
  induction n with
  | zero => intro _; simp
  | succ n ih =>
    intro h
    rw [h n (by omega), ih (fun i hi => h i (by omega)), List.range_succ, List.map_append,
      List.append_assoc]
    rfl

/-- C6: multi-block iteration order.  For a count `n > 1` whose last address
`start + n - 1` fits 32 bits, if the single-block operations at the addresses
`start + i` with the buffers `p_data + 512 * i`, run one after the other, all
return `SD_OK`, then `SD_ReadData` (resp. `SD_WriteData`) returns `SD_OK` in
the state the last of them leaves, and the single-block operations it entered
are exactly those `n` calls, in that order; the addresses are strictly
increasing. -/
theorem SD_Data_iteration_order (env : Env) (fuel p_data start n : Nat) (s : State)
    (hn : 1 < n) (hrange : start + n - 1 ≤ 2 ^ 32 - 1) :
    (∀ st : Nat → State, st 0 = s →
      (∀ i < n, SDCardReadBlock env fuel (p_data + 512 * i) (start + i) (st i)
        = some (SD_OK, st (i + 1))) →
      SD_ReadData env fuel p_data start n s = some (SD_OK, st n) ∧
      (st n).trace = s.trace ++
        (List.range n).map (fun i => BlockCall.read (p_data + 512 * i) (start + i))) ∧
    (∀ st : Nat → State, st 0 = s →
      (∀ i < n, SDCardWriteBlock env fuel (p_data + 512 * i) (start + i) (st i)
        = some (SD_OK, st (i + 1))) →
      SD_WriteData env fuel p_data start n s = some (SD_OK, st n) ∧
      (st n).trace = s.trace ++
        (List.range n).map (fun i => BlockCall.write (p_data + 512 * i) (start + i))) ∧
    List.Pairwise (fun a b => a < b) ((List.range n).map (fun i => start + i)) := by
  have ha : start < 2 ^ 32 := by omega
  have hmod : ∀ i < n, (start + i) % 2 ^ 32 = start + i :=
    fun i hi => Nat.mod_eq_of_lt (by omega)
  refine ⟨fun st h0 hstep => ⟨SD_ReadData_chain env fuel n p_data start s st h0 ha
      (fun i hi => by rw [hmod i hi]; exact hstep i hi), ?_⟩,
    fun st h0 hstep => ⟨SD_WriteData_chain env fuel n p_data start s st h0 ha
      (fun i hi => by rw [hmod i hi]; exact hstep i hi), ?_⟩, ?_⟩
  · rw [← h0]
    exact chain_trace st _ n (fun i hi => SDCardReadBlock_trace env _ _ _ _ _ _ (hstep i hi))
  · rw [← h0]
    exact chain_trace st _ n (fun i hi => SDCardWriteBlock_trace env _ _ _ _ _ _ (hstep i hi))
  · rw [List.pairwise_map]
    exact List.Pairwise.imp (fun h => by omega) (List.pairwise_lt_range n)

theorem eq_some_of_status (d : State) (x : sd_card_status_t)
    (r : Option (sd_card_status_t × State)) (h : r.map Prod.fst = some x) :
    r = some (x, finalState d r) := by
  cases r with
  | none => cases h
  | some v =>
    obtain ⟨a, b⟩ := v
    simp at h
    subst h
    rfl

set_option maxRecDepth 1000000 in
theorem cardReads_chain : ∀ i < 2,
    SDCardReadBlock cardReads 1 (0x1000 + 512 * i) (7 + i) (readChain cardReads 1 0x1000 7 State.init i)
      = some (SD_OK, readChain cardReads 1 0x1000 7 State.init (i + 1)) := by
  intro i hi
  have h : i = 0 ∨ i = 1 := by omega
  rcases h with rfl | rfl
  · exact eq_some_of_status _ _ _ (by decide)
  · exact eq_some_of_status _ _ _ (by decide)

set_option maxRecDepth 1000000 in
theorem cardWrites_chain : ∀ i < 2,
    SDCardWriteBlock cardWrites 1 (0x1000 + 512 * i) (7 + i)
        (writeChain cardWrites 1 0x1000 7 State.init i)
      = some (SD_OK, writeChain cardWrites 1 0x1000 7 State.init (i + 1)) := by
  intro i hi
  have h : i = 0 ∨ i = 1 := by omega
  rcases h with rfl | rfl
  · exact eq_some_of_status _ _ _ (by decide)
  · exact eq_some_of_status _ _ _ (by decide)

theorem SD_Data_iteration_order_witness :
    (SD_ReadData cardReads 1 0x1000 7 2 State.init
        = some (SD_OK, readChain cardReads 1 0x1000 7 State.init 2) ∧
      (readChain cardReads 1 0x1000 7 State.init 2).trace = State.init.trace ++
        (List.range 2).map (fun i => BlockCall.read (0x1000 + 512 * i) (7 + i))) ∧
    (SD_WriteData cardWrites 1 0x1000 7 2 State.init
        = some (SD_OK, writeChain cardWrites 1 0x1000 7 State.init 2) ∧
      (writeChain cardWrites 1 0x1000 7 State.init 2).trace = State.init.trace ++
        (List.range 2).map (fun i => BlockCall.write (0x1000 + 512 * i) (7 + i))) :=
  ⟨(SD_Data_iteration_order cardReads 1 0x1000 7 2 State.init (by decide) (by decide)).1
      (readChain cardReads 1 0x1000 7 State.init) rfl cardReads_chain,
    (SD_Data_iteration_order cardWrites 1 0x1000 7 2 State.init (by decide) (by decide)).2.1
      (writeChain cardWrites 1 0x1000 7 State.init) rfl cardWrites_chain⟩


/-! ## Data response of a single-block write -/

/-- The ready wait succeeds after `k` busy polls: with `k` bytes other than 0xFF
followed by 0xFF, all inside the window and with the HAL calls succeeding, the
loop returns `SD_OK` after `k + 1` polls. -/
theorem SDCardWaitForReady.loop_ready (env : Env) (timeout ticks : Nat) :
    ∀ (k fuel rx_byte : Nat) (s : State),
      (∀ j ≤ k, sub32 (env.tick (s.tickCalls + j)) ticks < timeout) →
      (∀ j ≤ k, env.hal (s.halCalls + j) = true) →
      (∀ j < k, env.miso (s.clk + j) % 256 ≠ 0xFF) →
      env.miso (s.clk + k) % 256 = 0xFF → k < fuel →
      SDCardWaitForReady.loop env timeout ticks fuel rx_byte s
        = some (SD_OK, s.adv (k + 1) (k + 1) (k + 1) (List.replicate (k + 1) 0xFF)) := by
  intro k
  induction k with
  | zero =>
    intro fuel rx_byte s hopen hhal _ hlast hf
    obtain ⟨f, rfl⟩ : ∃ f, fuel = f + 1 := ⟨fuel - 1, by omega⟩
    have h0 : sub32 (env.tick s.tickCalls) ticks < timeout := by simpa using hopen 0 (by omega)
    have hh : env.hal s.halCalls = true := by simpa using hhal 0 (by omega)
    have hl : env.miso s.clk % 256 = 0xFF := by simpa using hlast
    simp [SDCardWaitForReady.loop, HAL_GetTick_eq, h0, exchange_ok, hh, hl]
  | succ k ih =>
    intro fuel rx_byte s hopen hhal hbusy hlast hf
    obtain ⟨f, rfl⟩ : ∃ f, fuel = f + 1 := ⟨fuel - 1, by omega⟩
    have h0 : sub32 (env.tick s.tickCalls) ticks < timeout := by simpa using hopen 0 (by omega)
    have hh : env.hal s.halCalls = true := by simpa using hhal 0 (by omega)
    have hl : env.miso s.clk % 256 ≠ 0xFF := by simpa using hbusy 0 (by omega)
    have step : SDCardWaitForReady.loop env timeout ticks (f + 1) rx_byte s =
        SDCardWaitForReady.loop env timeout ticks f (env.miso s.clk % 256)
          (s.adv 1 1 1 [0xFF]) := by
      simp [SDCardWaitForReady.loop, HAL_GetTick_eq, h0, exchange_ok, hh, hl]
    rw [step, ih f _ (s.adv 1 1 1 [0xFF])
      (fun j hj => by simpa [Nat.add_assoc, Nat.add_comm 1 j] using hopen (j + 1) (by omega))
      (fun j hj => by simpa [Nat.add_assoc, Nat.add_comm 1 j] using hhal (j + 1) (by omega))
      (fun j hj => by simpa [Nat.add_assoc, Nat.add_comm 1 j] using hbusy (j + 1) (by omega))
      (by simpa [Nat.add_assoc, Nat.add_comm 1 k] using hlast) (by omega)]
    simp [Nat.add_comm 1 (k + 1), List.replicate_succ]

theorem SDCardWaitForReady_ready_after (env : Env) (timeout k fuel : Nat) (s : State)
    (hopen : ∀ j ≤ k, sub32 (env.tick (s.tickCalls + 1 + j)) (env.tick s.tickCalls) < timeout)
    (hhal : ∀ j ≤ k, env.hal (s.halCalls + j) = true)
    (hbusy : ∀ j < k, env.miso (s.clk + j) % 256 ≠ 0xFF)
    (hlast : env.miso (s.clk + k) % 256 = 0xFF) (hf : k < fuel) :
    SDCardWaitForReady env fuel timeout s
      = some (SD_OK, s.adv (k + 2) (k + 1) (k + 1) (List.replicate (k + 1) 0xFF)) := by
  unfold SDCardWaitForReady
  simp only [HAL_GetTick_eq]
  rw [SDCardWaitForReady.loop_ready env timeout _ k fuel 0x00 (s.adv 1 0 0 [])
    (fun j hj => by simpa using hopen j hj) (fun j hj => by simpa using hhal j hj)
    (fun j hj => by simpa using hbusy j hj) (by simpa using hlast) hf]
  simp [Nat.add_comm 1 (k + 1)]

theorem eq_some_of_value (d : State) (x : Nat) (r : Option (Nat × State))
    (h : r.map Prod.fst = some x) : r = some (x, (r.map Prod.snd).getD d) := by
  cases r with
  | none => cases h
  | some v =>
    obtain ⟨a, b⟩ := v
    simp at h
    subst h
    rfl

/-- C5: a rejected write is reported and stops the script.  In
`SDCardWriteBlock`, when the ready wait succeeds (state `s1`), the CMD24 frame
is transmitted (`s2`), the R1 response is 0x00 (`s3`), the token, payload and
filler CRC transmissions succeed (`s4`, `s5`, `s6`) and the data-response byte
`d` is received (`s7`): if the low nibble of `d` is not the accepted pattern
0x05 (as for the CRC-error pattern 0x0B and the write-error pattern 0x0D), the
function returns `SD_ERROR` in the very state `s7` the reception of `d`
returned in, one HAL call and one byte after `s6`, so nothing is exchanged
after `d`; if the low nibble is 0x05, whatever the function returns is `SD_OK`
or `SD_TIMEOUT`, not `SD_ERROR`. -/
theorem SDCardWriteBlock_data_response (env : Env) (fuel p_data addr d : Nat)
    (s s1 s2 s3 s4 s5 s6 s7 : State)
    (hwait : SDCardWaitForReady env fuel 1000
      (SDSPISelect (s.record (BlockCall.write p_data addr))) = some (SD_OK, s1))
    (hframe : SDCardTransmitData env
      (sd_card_frame_t.bytes { command := SD_CMD24_WRITE_BLOCK, arg := addr, crc7 := 0xFF })
      s1 = (SD_OK, s2))
    (hr1 : SDCardGetR1 env fuel 1000 s2 = some (0x00, s3))
    (htoken : SDCardTransmitData env [SD_TOKEN_24] s3 = (SD_OK, s4))
    (hpayload : SDCardTransmitData env (s4.load p_data SD_BLOCK_SIZE) s4 = (SD_OK, s5))
    (hcrc : SDCardTransmitData env [0xFF, 0xFF] s5 = (SD_OK, s6))
    (hresp : SDCardReceiveData env 1 s6 = (SD_OK, [d], s7)) :
    (d &&& SD_WRITE_RESPONSE_MASK ≠ SD_WRITE_RESPONSE_ACCEPTED →
      SDCardWriteBlock env fuel p_data addr s = some (SD_ERROR, s7) ∧
        s7.clk = s6.clk + 1 ∧ s7.halCalls = s6.halCalls + 1 ∧ s7.mosi = s6.mosi ++ [0xFF]) ∧
    (d &&& SD_WRITE_RESPONSE_MASK = SD_WRITE_RESPONSE_ACCEPTED →
      ∀ st s8, SDCardWriteBlock env fuel p_data addr s = some (st, s8) →
        st = SD_OK ∨ st = SD_TIMEOUT) ∧
    SD_WRITE_RESPONSE_CRC_ERROR &&& SD_WRITE_RESPONSE_MASK ≠ SD_WRITE_RESPONSE_ACCEPTED ∧
    SD_WRITE_RESPONSE_WRITE_ERROR &&& SD_WRITE_RESPONSE_MASK ≠ SD_WRITE_RESPONSE_ACCEPTED := by
  have hrun : SDCardWriteBlock env fuel p_data addr s =
      if d &&& SD_WRITE_RESPONSE_MASK ≠ SD_WRITE_RESPONSE_ACCEPTED then some (SD_ERROR, s7)
      else
        match SDCardWaitForReady env fuel 1000 s7 with
        | none => none
        | some (st, s8) =>
          if st ≠ SD_OK then some (SD_TIMEOUT, s8) else some (SD_OK, SDSPIDeselect s8) := by
    unfold SDCardWriteBlock
    dsimp only
    rw [hwait]
    dsimp only
    rw [if_neg (by simp), hframe]
    dsimp only
    rw [if_neg (by simp), hr1]
    dsimp only
    rw [if_neg (by simp), htoken]
    dsimp only
    rw [if_neg (by simp), hpayload]
    dsimp only
    rw [if_neg (by simp), hcrc]
    dsimp only
    rw [if_neg (by simp), hresp]
    dsimp only
    rw [if_neg (by simp)]
    rfl
  have hstate : s7.clk = s6.clk + 1 ∧ s7.halCalls = s6.halCalls + 1 ∧
      s7.mosi = s6.mosi ++ [0xFF] := by
    cases hh : env.hal s6.halCalls with
    | false =>
      have : (SDCardReceiveData env 1 s6).1 = SD_RX_ERROR := by
        simp [SDCardReceiveData, SDCardReceiveData.loop, exchange_fail, hh]
      rw [hresp] at this
      cases this
    | true =>
      have h1 := SDCardReceiveData_ok env 1 s6 (fun j hj => by
        have : j = 0 := by omega
        subst this
        simpa using hh)
      rw [hresp] at h1
      have h2 : s7 = s6.adv 0 1 1 (List.replicate 1 0xFF) := congrArg (fun r => r.2.2) h1
      rw [h2]
      exact ⟨rfl, rfl, rfl⟩
  refine ⟨fun hrej => ⟨?_, hstate⟩, fun hacc st s8 hres => ?_, by decide, by decide⟩
  · rw [hrun, if_pos hrej]
  · rw [hrun, if_neg (by simpa using hacc)] at hres
    cases hw : SDCardWaitForReady env fuel 1000 s7 with
    | none => rw [hw] at hres; cases hres
    | some r =>
      obtain ⟨st8, t8⟩ := r
      rw [hw] at hres
      dsimp only at hres
      by_cases h8 : st8 = SD_OK
      · rw [if_neg (by simpa using h8)] at hres
        cases hres
        exact Or.inl rfl
      · rw [if_pos h8] at hres
        cases hres
        exact Or.inr rfl

set_option maxRecDepth 1000000 in
theorem cardWriteBusy_run_0B :
    SDCardWaitForReady (cardWriteBusy 0x0B) 3 1000
        (SDSPISelect (State.init.record (BlockCall.write 0 0)))
      = some (SD_OK, writeAfterWait (cardWriteBusy 0x0B) 3 0 0 State.init) ∧
    SDCardTransmitData (cardWriteBusy 0x0B)
      (sd_card_frame_t.bytes { command := SD_CMD24_WRITE_BLOCK, arg := 0, crc7 := 0xFF })
      (writeAfterWait (cardWriteBusy 0x0B) 3 0 0 State.init) = (SD_OK, writeAfterFrame (cardWriteBusy 0x0B) 3 0 0 State.init) ∧
    SDCardGetR1 (cardWriteBusy 0x0B) 3 1000 (writeAfterFrame (cardWriteBusy 0x0B) 3 0 0 State.init)
      = some (0x00, writeAfterR1 (cardWriteBusy 0x0B) 3 0 0 State.init) ∧
    SDCardTransmitData (cardWriteBusy 0x0B) [SD_TOKEN_24] (writeAfterR1 (cardWriteBusy 0x0B) 3 0 0 State.init)
      = (SD_OK, writeAfterToken (cardWriteBusy 0x0B) 3 0 0 State.init) ∧
    SDCardTransmitData (cardWriteBusy 0x0B) ((writeAfterToken (cardWriteBusy 0x0B) 3 0 0 State.init).load 0 SD_BLOCK_SIZE)
      (writeAfterToken (cardWriteBusy 0x0B) 3 0 0 State.init) = (SD_OK, writeAfterPayload (cardWriteBusy 0x0B) 3 0 0 State.init) ∧
    SDCardTransmitData (cardWriteBusy 0x0B) [0xFF, 0xFF] (writeAfterPayload (cardWriteBusy 0x0B) 3 0 0 State.init)
      = (SD_OK, writeAfterCrc (cardWriteBusy 0x0B) 3 0 0 State.init) ∧
    SDCardReceiveData (cardWriteBusy 0x0B) 1 (writeAfterCrc (cardWriteBusy 0x0B) 3 0 0 State.init)
      = (SD_OK, [0x0B], writeAfterResponse (cardWriteBusy 0x0B) 3 0 0 State.init) :=
  ⟨eq_some_of_status _ _ _ (by decide), Prod.ext (by decide) rfl,
    eq_some_of_value _ _ _ (by decide), Prod.ext (by decide) rfl, Prod.ext (by decide) rfl,
    Prod.ext (by decide) rfl, Prod.ext (by decide) (Prod.ext (by decide) rfl)⟩

set_option maxRecDepth 1000000 in
theorem cardWriteBusy_run_05 :
    SDCardWaitForReady (cardWriteBusy 0x05) 3 1000
        (SDSPISelect (State.init.record (BlockCall.write 0 0)))
      = some (SD_OK, writeAfterWait (cardWriteBusy 0x05) 3 0 0 State.init) ∧
    SDCardTransmitData (cardWriteBusy 0x05)
      (sd_card_frame_t.bytes { command := SD_CMD24_WRITE_BLOCK, arg := 0, crc7 := 0xFF })
      (writeAfterWait (cardWriteBusy 0x05) 3 0 0 State.init) = (SD_OK, writeAfterFrame (cardWriteBusy 0x05) 3 0 0 State.init) ∧
    SDCardGetR1 (cardWriteBusy 0x05) 3 1000 (writeAfterFrame (cardWriteBusy 0x05) 3 0 0 State.init)
      = some (0x00, writeAfterR1 (cardWriteBusy 0x05) 3 0 0 State.init) ∧
    SDCardTransmitData (cardWriteBusy 0x05) [SD_TOKEN_24] (writeAfterR1 (cardWriteBusy 0x05) 3 0 0 State.init)
      = (SD_OK, writeAfterToken (cardWriteBusy 0x05) 3 0 0 State.init) ∧
    SDCardTransmitData (cardWriteBusy 0x05) ((writeAfterToken (cardWriteBusy 0x05) 3 0 0 State.init).load 0 SD_BLOCK_SIZE)
      (writeAfterToken (cardWriteBusy 0x05) 3 0 0 State.init) = (SD_OK, writeAfterPayload (cardWriteBusy 0x05) 3 0 0 State.init) ∧
    SDCardTransmitData (cardWriteBusy 0x05) [0xFF, 0xFF] (writeAfterPayload (cardWriteBusy 0x05) 3 0 0 State.init)
      = (SD_OK, writeAfterCrc (cardWriteBusy 0x05) 3 0 0 State.init) ∧
    SDCardReceiveData (cardWriteBusy 0x05) 1 (writeAfterCrc (cardWriteBusy 0x05) 3 0 0 State.init)
      = (SD_OK, [0x05], writeAfterResponse (cardWriteBusy 0x05) 3 0 0 State.init) :=
  ⟨eq_some_of_status _ _ _ (by decide), Prod.ext (by decide) rfl,
    eq_some_of_value _ _ _ (by decide), Prod.ext (by decide) rfl, Prod.ext (by decide) rfl,
    Prod.ext (by decide) rfl, Prod.ext (by decide) (Prod.ext (by decide) rfl)⟩

theorem SDCardWriteBlock_data_response_witness :
    (SDCardWriteBlock (cardWriteBusy 0x0B) 3 0 0 State.init
        = some (SD_ERROR, writeAfterResponse (cardWriteBusy 0x0B) 3 0 0 State.init) ∧
      (writeAfterResponse (cardWriteBusy 0x0B) 3 0 0 State.init).clk
        = (writeAfterCrc (cardWriteBusy 0x0B) 3 0 0 State.init).clk + 1 ∧
      (writeAfterResponse (cardWriteBusy 0x0B) 3 0 0 State.init).halCalls
        = (writeAfterCrc (cardWriteBusy 0x0B) 3 0 0 State.init).halCalls + 1 ∧
      (writeAfterResponse (cardWriteBusy 0x0B) 3 0 0 State.init).mosi
        = (writeAfterCrc (cardWriteBusy 0x0B) 3 0 0 State.init).mosi ++ [0xFF]) ∧
    (∀ st s8, SDCardWriteBlock (cardWriteBusy 0x05) 3 0 0 State.init = some (st, s8) →
        st = SD_OK ∨ st = SD_TIMEOUT) :=
  ⟨(SDCardWriteBlock_data_response (cardWriteBusy 0x0B) 3 0 0 0x0B State.init _ _ _ _ _ _ _
      cardWriteBusy_run_0B.1 cardWriteBusy_run_0B.2.1 cardWriteBusy_run_0B.2.2.1
      cardWriteBusy_run_0B.2.2.2.1 cardWriteBusy_run_0B.2.2.2.2.1
      cardWriteBusy_run_0B.2.2.2.2.2.1 cardWriteBusy_run_0B.2.2.2.2.2.2).1 (by decide),
    (SDCardWriteBlock_data_response (cardWriteBusy 0x05) 3 0 0 0x05 State.init _ _ _ _ _ _ _
      cardWriteBusy_run_05.1 cardWriteBusy_run_05.2.1 cardWriteBusy_run_05.2.2.1
      cardWriteBusy_run_05.2.2.2.1 cardWriteBusy_run_05.2.2.2.2.1
      cardWriteBusy_run_05.2.2.2.2.2.1 cardWriteBusy_run_05.2.2.2.2.2.2).2.1 (by decide)⟩


/-! ## Failure of a multi-block operation -/

theorem SD_ReadData_first_failure (env : Env) (fuel : Nat) :
    ∀ (k n p a : Nat) (s sf : State) (st : Nat → State) (e : sd_card_status_t),
      st 0 = s → a < 2 ^ 32 → k < n → e ≠ SD_OK →
      (∀ i < k, SDCardReadBlock env fuel (p + 512 * i) ((a + i) % 2 ^ 32) (st i)
        = some (SD_OK, st (i + 1))) →
      SDCardReadBlock env fuel (p + 512 * k) ((a + k) % 2 ^ 32) (st k) = some (e, sf) →
      SD_ReadData env fuel p a n s = some (SD_ERROR, sf) := by
  intro k
  induction k with
  | zero =>
    intro n p a s sf st e h0 ha hk he _ hfail
    obtain ⟨m, rfl⟩ : ∃ m, n = m + 1 := ⟨n - 1, by omega⟩
    simp only [Nat.mul_zero, Nat.add_zero, h0, Nat.mod_eq_of_lt ha] at hfail
    unfold SD_ReadData
    rw [hfail]
    dsimp only
    rw [if_pos he]
  | succ k ih =>
    intro n p a s sf st e h0 ha hk he hstep hfail
    obtain ⟨m, rfl⟩ : ∃ m, n = m + 1 := ⟨n - 1, by omega⟩
    have h1 := hstep 0 (by omega)
    simp only [Nat.mul_zero, Nat.add_zero, h0, Nat.mod_eq_of_lt ha] at h1
    unfold SD_ReadData
    rw [h1]
    dsimp only
    rw [if_neg (by simp)]
    refine ih m (p + 512) ((a + 1) % 2 ^ 32) (st 1) sf (fun i => st (i + 1)) e rfl
      (Nat.mod_lt _ (by norm_num)) (by omega) he (fun i hi => ?_) ?_
    · have := hstep (i + 1) (by omega)
      rw [show p + 512 * (i + 1) = p + 512 + 512 * i by omega,
        show (a + (i + 1)) % 2 ^ 32 = ((a + 1) % 2 ^ 32 + i) % 2 ^ 32 by omega] at this
      exact this
    · rw [show p + 512 * (k + 1) = p + 512 + 512 * k by omega,
        show (a + (k + 1)) % 2 ^ 32 = ((a + 1) % 2 ^ 32 + k) % 2 ^ 32 by omega] at hfail
      exact hfail

theorem SD_WriteData_first_failure (env : Env) (fuel : Nat) :
    ∀ (k n p a : Nat) (s sf : State) (st : Nat → State) (e : sd_card_status_t),
      st 0 = s → a < 2 ^ 32 → k < n → e ≠ SD_OK →
      (∀ i < k, SDCardWriteBlock env fuel (p + 512 * i) ((a + i) % 2 ^ 32) (st i)
        = some (SD_OK, st (i + 1))) →
      SDCardWriteBlock env fuel (p + 512 * k) ((a + k) % 2 ^ 32) (st k) = some (e, sf) →
      SD_WriteData env fuel p a n s = some (SD_ERROR, sf) := by
  intro k
  induction k with
  | zero =>
    intro n p a s sf st e h0 ha hk he _ hfail
    obtain ⟨m, rfl⟩ : ∃ m, n = m + 1 := ⟨n - 1, by omega⟩
    simp only [Nat.mul_zero, Nat.add_zero, h0, Nat.mod_eq_of_lt ha] at hfail
    unfold SD_WriteData
    rw [hfail]
    dsimp only
    rw [if_pos he]
  | succ k ih =>
    intro n p a s sf st e h0 ha hk he hstep hfail
    obtain ⟨m, rfl⟩ : ∃ m, n = m + 1 := ⟨n - 1, by omega⟩
    have h1 := hstep 0 (by omega)
    simp only [Nat.mul_zero, Nat.add_zero, h0, Nat.mod_eq_of_lt ha] at h1
    unfold SD_WriteData
    rw [h1]
    dsimp only
    rw [if_neg (by simp)]
    refine ih m (p + 512) ((a + 1) % 2 ^ 32) (st 1) sf (fun i => st (i + 1)) e rfl
      (Nat.mod_lt _ (by norm_num)) (by omega) he (fun i hi => ?_) ?_
    · have := hstep (i + 1) (by omega)
      rw [show p + 512 * (i + 1) = p + 512 + 512 * i by omega,
        show (a + (i + 1)) % 2 ^ 32 = ((a + 1) % 2 ^ 32 + i) % 2 ^ 32 by omega] at this
      exact this
    · rw [show p + 512 * (k + 1) = p + 512 + 512 * k by omega,
        show (a + (k + 1)) % 2 ^ 32 = ((a + 1) % 2 ^ 32 + k) % 2 ^ 32 by omega] at hfail
      exact hfail

/-- C7, as the claim states it, fails: against a card that stays busy while the
tick advances 1000 ms per read, the single-block operation returns
`SD_TIMEOUT`, and the composite operation over it returns `SD_ERROR`, not
`SD_TIMEOUT`. -/
theorem SD_Data_status_not_propagated :
    (SDCardReadBlock (cardBusy 0x00 1000) 1 0 0 State.init).map Prod.fst = some SD_TIMEOUT ∧
    (SD_ReadData (cardBusy 0x00 1000) 1 0 0 1 State.init).map Prod.fst = some SD_ERROR ∧
    (SDCardWriteBlock (cardBusy 0x00 1000) 1 0 0 State.init).map Prod.fst = some SD_TIMEOUT ∧
    (SD_WriteData (cardBusy 0x00 1000) 1 0 0 1 State.init).map Prod.fst = some SD_ERROR := by
  decide

/-- C7, amended: if the single-block operation number `k` (counting from 0) is
the first to return a status `e` other than `SD_OK`, then `SD_ReadData` (resp.
`SD_WriteData`) returns `SD_ERROR`, whatever `e` is, in the very state that
operation returned in, and the single-block operations entered are exactly the
calls number 0 to `k`: none after the failing one is performed. -/
theorem SD_Data_first_failure (env : Env) (fuel p_data start n k : Nat) (s sf : State)
    (e : sd_card_status_t) (hstart : start < 2 ^ 32) (hk : k < n) (he : e ≠ SD_OK) :
    (∀ st : Nat → State, st 0 = s →
      (∀ i < k, SDCardReadBlock env fuel (p_data + 512 * i) ((start + i) % 2 ^ 32) (st i)
        = some (SD_OK, st (i + 1))) →
      SDCardReadBlock env fuel (p_data + 512 * k) ((start + k) % 2 ^ 32) (st k) = some (e, sf) →
      SD_ReadData env fuel p_data start n s = some (SD_ERROR, sf) ∧
      sf.trace = s.trace ++ (List.range (k + 1)).map
        (fun i => BlockCall.read (p_data + 512 * i) ((start + i) % 2 ^ 32))) ∧
    (∀ st : Nat → State, st 0 = s →
      (∀ i < k, SDCardWriteBlock env fuel (p_data + 512 * i) ((start + i) % 2 ^ 32) (st i)
        = some (SD_OK, st (i + 1))) →
      SDCardWriteBlock env fuel (p_data + 512 * k) ((start + k) % 2 ^ 32) (st k) = some (e, sf) →
      SD_WriteData env fuel p_data start n s = some (SD_ERROR, sf) ∧
      sf.trace = s.trace ++ (List.range (k + 1)).map
        (fun i => BlockCall.write (p_data + 512 * i) ((start + i) % 2 ^ 32))) := by
  constructor
  · intro st h0 hstep hfail
    refine ⟨SD_ReadData_first_failure env fuel k n p_data start s sf st e h0 hstart hk he hstep
      hfail, ?_⟩
    rw [SDCardReadBlock_trace env _ _ _ _ _ _ hfail,
      chain_trace st (fun i => BlockCall.read (p_data + 512 * i) ((start + i) % 2 ^ 32)) k
        (fun i hi => SDCardReadBlock_trace env _ _ _ _ _ _ (hstep i hi)),
      h0, List.range_succ, List.map_append, List.append_assoc]
    rfl
  · intro st h0 hstep hfail
    refine ⟨SD_WriteData_first_failure env fuel k n p_data start s sf st e h0 hstart hk he hstep
      hfail, ?_⟩
    rw [SDCardWriteBlock_trace env _ _ _ _ _ _ hfail,
      chain_trace st (fun i => BlockCall.write (p_data + 512 * i) ((start + i) % 2 ^ 32)) k
        (fun i hi => SDCardWriteBlock_trace env _ _ _ _ _ _ (hstep i hi)),
      h0, List.range_succ, List.map_append, List.append_assoc]
    rfl

set_option maxRecDepth 1000000 in
theorem cardReads_second_fails :
    SDCardReadBlock (cardFailAt cardReads 519) 1 (0x1000 + 512 * 0) ((7 + 0) % 2 ^ 32) State.init
      = some (SD_OK, finalState State.init
          (SDCardReadBlock (cardFailAt cardReads 519) 1 0x1000 7 State.init)) ∧
    SDCardReadBlock (cardFailAt cardReads 519) 1 (0x1000 + 512 * 1) ((7 + 1) % 2 ^ 32)
        (finalState State.init (SDCardReadBlock (cardFailAt cardReads 519) 1 0x1000 7 State.init))
      = some (SD_TX_ERROR, finalState State.init
          (SDCardReadBlock (cardFailAt cardReads 519) 1 0x1200 8
            (finalState State.init
              (SDCardReadBlock (cardFailAt cardReads 519) 1 0x1000 7 State.init)))) :=
  ⟨eq_some_of_status _ _ _ (by decide), eq_some_of_status _ _ _ (by decide)⟩

set_option maxRecDepth 1000000 in
theorem cardWrites_second_fails :
    SDCardWriteBlock (cardFailAt cardWrites 9) 1 (0x1000 + 512 * 0) ((7 + 0) % 2 ^ 32) State.init
      = some (SD_OK, finalState State.init
          (SDCardWriteBlock (cardFailAt cardWrites 9) 1 0x1000 7 State.init)) ∧
    SDCardWriteBlock (cardFailAt cardWrites 9) 1 (0x1000 + 512 * 1) ((7 + 1) % 2 ^ 32)
        (finalState State.init (SDCardWriteBlock (cardFailAt cardWrites 9) 1 0x1000 7 State.init))
      = some (SD_TX_ERROR, finalState State.init
          (SDCardWriteBlock (cardFailAt cardWrites 9) 1 0x1200 8
            (finalState State.init
              (SDCardWriteBlock (cardFailAt cardWrites 9) 1 0x1000 7 State.init)))) :=
  ⟨eq_some_of_status _ _ _ (by decide), eq_some_of_status _ _ _ (by decide)⟩


theorem SD_Data_first_failure_witness :
    (SD_ReadData (cardFailAt cardReads 519) 1 0x1000 7 3 State.init
        = some (SD_ERROR, readChain (cardFailAt cardReads 519) 1 0x1000 7 State.init 2) ∧
      (readChain (cardFailAt cardReads 519) 1 0x1000 7 State.init 2).trace = State.init.trace ++
        (List.range (1 + 1)).map
          (fun i => BlockCall.read (0x1000 + 512 * i) ((7 + i) % 2 ^ 32))) ∧
    (SD_WriteData (cardFailAt cardWrites 9) 1 0x1000 7 3 State.init
        = some (SD_ERROR, writeChain (cardFailAt cardWrites 9) 1 0x1000 7 State.init 2) ∧
      (writeChain (cardFailAt cardWrites 9) 1 0x1000 7 State.init 2).trace = State.init.trace ++
        (List.range (1 + 1)).map
          (fun i => BlockCall.write (0x1000 + 512 * i) ((7 + i) % 2 ^ 32))) :=
  ⟨(SD_Data_first_failure (cardFailAt cardReads 519) 1 0x1000 7 3 1 State.init
      (readChain (cardFailAt cardReads 519) 1 0x1000 7 State.init 2) SD_TX_ERROR
      (by decide) (by decide) (by decide)).1
      (readChain (cardFailAt cardReads 519) 1 0x1000 7 State.init) rfl
      (fun i hi => by
        have h : i = 0 := by omega
        subst h
        exact cardReads_second_fails.1)
      cardReads_second_fails.2,
    (SD_Data_first_failure (cardFailAt cardWrites 9) 1 0x1000 7 3 1 State.init
      (writeChain (cardFailAt cardWrites 9) 1 0x1000 7 State.init 2) SD_TX_ERROR
      (by decide) (by decide) (by decide)).2
      (writeChain (cardFailAt cardWrites 9) 1 0x1000 7 State.init) rfl
      (fun i hi => by
        have h : i = 0 := by omega
        subst h
        exact cardWrites_second_fails.1)
      cardWrites_second_fails.2⟩


/-! ## Initialisation against a busy card -/

theorem SDCard_Init.clocks_frame (env : Env) :
    ∀ (n : Nat) (s : State), (SDCard_Init.clocks env n s).tickCalls = s.tickCalls ∧
      (SDCard_Init.clocks env n s).log = s.log := by
  intro n
  induction n with
  | zero => intro s; exact ⟨rfl, rfl⟩
  | succ n ih =>
    intro s
    unfold SDCard_Init.clocks
    have h := ih (HAL_SPI_Transmit env [0xFF] s).2
    have e : (HAL_SPI_Transmit env [0xFF] s).2.tickCalls = s.tickCalls ∧
        (HAL_SPI_Transmit env [0xFF] s).2.log = s.log := by
      unfold HAL_SPI_Transmit
      split <;> exact ⟨rfl, rfl⟩
    rw [e.1, e.2] at h
    exact h

theorem SDCard_Init.clocks_bus (env : Env) :
    ∀ (n : Nat) (s : State), (SDCard_Init.clocks env n s).halCalls = s.halCalls + n ∧
      (SDCard_Init.clocks env n s).cs = s.cs ∧
      ∃ m, (SDCard_Init.clocks env n s).mosi = s.mosi ++ List.replicate m 0xFF := by
  intro n
  induction n with
  | zero => intro s; exact ⟨rfl, rfl, 0, by simp [SDCard_Init.clocks]⟩
  | succ n ih =>
    intro s
    unfold SDCard_Init.clocks
    obtain ⟨h1, h2, m, h3⟩ := ih (HAL_SPI_Transmit env [0xFF] s).2
    have e : (HAL_SPI_Transmit env [0xFF] s).2.halCalls = s.halCalls + 1 ∧
        (HAL_SPI_Transmit env [0xFF] s).2.cs = s.cs ∧
        ∃ m0, (HAL_SPI_Transmit env [0xFF] s).2.mosi = s.mosi ++ List.replicate m0 0xFF := by
      unfold HAL_SPI_Transmit
      split
      · exact ⟨rfl, rfl, 1, rfl⟩
      · exact ⟨rfl, rfl, 0, by simp⟩
    obtain ⟨e1, e2, m0, e3⟩ := e
    refine ⟨by rw [h1, e1]; omega, by rw [h2, e2], m0 + m, ?_⟩
    rw [h3, e3, List.append_assoc, ← List.replicate_add]

theorem exchange_mosi (env : Env) (rx : List Nat) (s : State) :
    ∃ m, (HAL_SPI_TransmitReceive env [0xFF] rx s).2.2.mosi = s.mosi ++ List.replicate m 0xFF := by
  unfold HAL_SPI_TransmitReceive
  split
  · exact ⟨1, rfl⟩
  · exact ⟨0, by simp⟩

/-- Whatever `SDCardWaitForReady` returns, the only bytes it has put on MOSI are
filler bytes 0xFF. -/
theorem SDCardWaitForReady_mosi (env : Env) (fuel timeout : Nat) (s s2 : State)
    (st : sd_card_status_t) (h : SDCardWaitForReady env fuel timeout s = some (st, s2)) :
    ∃ m, s2.mosi = s.mosi ++ List.replicate m 0xFF := by
  unfold SDCardWaitForReady at h
  have key : ∀ (fuel rx : Nat) (t : State),
      SDCardWaitForReady.loop env timeout (HAL_GetTick env s).1 fuel rx t = some (st, s2) →
      ∃ m, s2.mosi = t.mosi ++ List.replicate m 0xFF := by
    intro fuel
    induction fuel with
    | zero => intro rx t h; cases h
    | succ f ih =>
      intro rx t h
      unfold SDCardWaitForReady.loop at h
      dsimp only at h
      split at h
      · obtain ⟨m0, e0⟩ := exchange_mosi env [rx] (HAL_GetTick env t).2
        split at h
        · cases h
          exact ⟨m0, e0⟩
        · obtain ⟨m, e⟩ := ih _ _ h
          refine ⟨m0 + m, ?_⟩
          rw [e, e0, List.append_assoc, ← List.replicate_add]
          rfl
      · cases h
        exact ⟨0, by simp [HAL_GetTick]⟩
  exact key fuel _ (HAL_GetTick env s).2 h

/-- Against a card that never shows 0xFF, `SDCard_Init` is decided by its first
ready wait: it runs out of fuel while the 0xFFFF window is open and returns
`SD_TIMEOUT` at the first tick read that finds it closed. -/
theorem SDCard_Init_busy (env : Env) (v k : Nat) (s : State) (hv : v % 256 ≠ 0xFF)
    (hm : ∀ i, env.miso i = v)
    (hopen : ∀ j < k, sub32 (env.tick (s.tickCalls + 1 + j)) (env.tick s.tickCalls) < 0xFFFF)
    (hclose : 0xFFFF ≤ sub32 (env.tick (s.tickCalls + 1 + k)) (env.tick s.tickCalls))
    (fuel : Nat) :
    (fuel ≤ k → SDCard_Init env fuel s = none) ∧
    (k < fuel → ∃ s2, SDCard_Init env fuel s = some (SD_TIMEOUT, s2) ∧
      s2.tickCalls = s.tickCalls + k + 2 ∧ s2.log = s.log ∧
      s2.halCalls = s.halCalls + 10 + k ∧ s2.cs = false ∧
      ∃ m, s2.mosi = s.mosi ++ List.replicate m 0xFF) := by
  have hc := SDCard_Init.clocks_frame env 10 (SDSPIDeselect s)
  have hb := SDCard_Init.clocks_bus env 10 (SDSPIDeselect s)
  have ht : (SDSPISelect (SDCard_Init.clocks env 10 (SDSPIDeselect s))).tickCalls
      = s.tickCalls := hc.1
  have hl : (SDSPISelect (SDCard_Init.clocks env 10 (SDSPIDeselect s))).log = s.log := hc.2
  have hcalls : (SDSPISelect (SDCard_Init.clocks env 10 (SDSPIDeselect s))).halCalls
      = s.halCalls + 10 := hb.1
  have hcs : (SDSPISelect (SDCard_Init.clocks env 10 (SDSPIDeselect s))).cs = false := rfl
  have hmosi : ∃ m, (SDSPISelect (SDCard_Init.clocks env 10 (SDSPIDeselect s))).mosi
      = s.mosi ++ List.replicate m 0xFF := hb.2.2
  revert ht hl hcalls hcs hmosi
  generalize hs1 : SDSPISelect (SDCard_Init.clocks env 10 (SDSPIDeselect s)) = s1
  intro ht hl hcalls hcs hmosi
  have hw := SDCardWaitForReady.loop_busy env 0xFFFF (env.tick s1.tickCalls % 2 ^ 32) k fuel
    0x00 (s1.adv 1 0 0 []) (by norm_num) (fun i _ => by rw [hm i]; exact hv)
    (fun j hj => by
      have := hopen j hj
      rw [← ht] at this
      simpa using this)
    (by
      have := hclose
      rw [← ht] at this
      simpa using this)
  have hdef : SDCardWaitForReady env fuel 0xFFFF s1
      = SDCardWaitForReady.loop env 0xFFFF (env.tick s1.tickCalls % 2 ^ 32) fuel 0x00
          (s1.adv 1 0 0 []) := by
    simp [SDCardWaitForReady, HAL_GetTick_eq]
  constructor
  · intro hf
    have h := hw.1 hf
    rw [← hdef] at h
    unfold SDCard_Init
    dsimp only
    rw [hs1, h]
  · intro hf
    obtain ⟨s2, h, h2, h3, h4, h5, _⟩ := hw.2 hf
    rw [← hdef] at h
    refine ⟨s2, ?_, ?_, ?_, ?_, ?_, ?_⟩
    · unfold SDCard_Init
      dsimp only
      rw [hs1, h]
      dsimp only
      rw [if_pos (by simp)]
    · rw [h2]; simp; omega
    · rw [h5]; exact hl
    · rw [h3]; simp; omega
    · rw [h4]; exact hcs
    · obtain ⟨m0, e0⟩ := hmosi
      obtain ⟨m, e⟩ := SDCardWaitForReady_mosi env _ _ _ _ _ h
      exact ⟨m0 + m, by rw [e, e0, List.append_assoc, ← List.replicate_add]⟩


theorem cardBusy_window :
    (∀ j < 65534, sub32 ((cardBusy 0x00 1).tick (State.init.tickCalls + 1 + j))
      ((cardBusy 0x00 1).tick State.init.tickCalls) < 0xFFFF) ∧
    0xFFFF ≤ sub32 ((cardBusy 0x00 1).tick (State.init.tickCalls + 1 + 65534))
      ((cardBusy 0x00 1).tick State.init.tickCalls) := by
  constructor
  · intro j hj
    show sub32 (1 * (0 + 1 + j)) (1 * 0) < 0xFFFF
    unfold sub32
    omega
  · decide

/-- C9, as the claim states it, fails: against a card that always answers 0x00,
with a tick source that advances by one millisecond per read, `SDCard_Init`
does return `SD_TIMEOUT`, but every run that returns has let 65535 ticks pass
between its first and its last tick read, which exceeds 5000. -/
theorem SDCard_Init_busy_exceeds_budget :
    (∃ s2, SDCard_Init (cardBusy 0x00 1) 65535 State.init = some (SD_TIMEOUT, s2)) ∧
    ∀ fuel st s2, SDCard_Init (cardBusy 0x00 1) fuel State.init = some (st, s2) →
      st = SD_TIMEOUT ∧
      (cardBusy 0x00 1).tick (s2.tickCalls - 1) - (cardBusy 0x00 1).tick State.init.tickCalls
        = 65535 ∧
      ¬ ((cardBusy 0x00 1).tick (s2.tickCalls - 1)
        - (cardBusy 0x00 1).tick State.init.tickCalls ≤ 5000) := by
  have key := SDCard_Init_busy (cardBusy 0x00 1) 0x00 65534 State.init (by decide)
    (fun _ => rfl) cardBusy_window.1 cardBusy_window.2
  constructor
  · obtain ⟨s2, h, _⟩ := (key 65535).2 (by decide)
    exact ⟨s2, h⟩
  · intro fuel st s2 h
    by_cases hf : fuel ≤ 65534
    · rw [(key fuel).1 hf] at h
      cases h
    · obtain ⟨t2, h2, ht, _⟩ := (key fuel).2 (by omega)
      rw [h2] at h
      cases h
      have e : (cardBusy 0x00 1).tick (s2.tickCalls - 1)
          - (cardBusy 0x00 1).tick State.init.tickCalls = 65535 := by
        rw [ht]
        show 1 * (0 + 65534 + 2 - 1) - 1 * 0 = 65535
        decide
      refine ⟨rfl, e, ?_⟩
      rw [e]
      decide

/-- C9, amended: for every fixed byte `v` other than 0xFF, if every byte
received is `v` and the tick source is monotone and at some read is at least
0xFFFF ticks (modulo 2^32) past the first read, `SDCard_Init` terminates and
returns `SD_TIMEOUT` from its first ready wait, before any command is sent:
its only HAL calls are the ten dummy-clock transmissions and one exchange per
poll of that wait, every byte it has put on MOSI is the filler 0xFF, nothing
is logged, it returns at the first tick read that finds the 0xFFFF window
closed, and the tick count elapsed between its first and its last tick read
is at least 65535 (so it is bounded by the 0xFFFF ready-wait window, not by
the 5000 ms ACMD41 budget). -/
theorem SDCard_Init_never_ready (env : Env) (v : Nat) (s : State) (hv : v % 256 ≠ 0xFF)
    (hm : ∀ i, env.miso i = v) (hmono : Monotone env.tick)
    (hadv : ∃ n, 0xFFFF ≤ sub32 (env.tick (s.tickCalls + 1 + n)) (env.tick s.tickCalls)) :
    ∃ N, ∀ fuel, N ≤ fuel → ∃ s2, SDCard_Init env fuel s = some (SD_TIMEOUT, s2) ∧
      s2.log = s.log ∧
      0xFFFF ≤ env.tick (s2.tickCalls - 1) - env.tick s.tickCalls ∧
      (∀ j, s.tickCalls + 1 + j < s2.tickCalls - 1 →
        sub32 (env.tick (s.tickCalls + 1 + j)) (env.tick s.tickCalls) < 0xFFFF) ∧
      (∃ k, s2.tickCalls = s.tickCalls + k + 2 ∧ s2.halCalls = s.halCalls + 10 + k) ∧
      (∃ m, s2.mosi = s.mosi ++ List.replicate m 0xFF) := by
  classical
  refine ⟨Nat.find hadv + 1, fun fuel hfuel => ?_⟩
  have hopen : ∀ j < Nat.find hadv,
      sub32 (env.tick (s.tickCalls + 1 + j)) (env.tick s.tickCalls) < 0xFFFF :=
    fun j hj => Nat.lt_of_not_le (Nat.find_min hadv hj)
  have hclose := Nat.find_spec hadv
  obtain ⟨s2, h, ht, hl, hcalls, _, hmosi⟩ :=
    (SDCard_Init_busy env v (Nat.find hadv) s hv hm hopen hclose fuel).2 (by omega)
  have e : s2.tickCalls - 1 = s.tickCalls + 1 + Nat.find hadv := by omega
  refine ⟨s2, h, hl, ?_, ?_, ⟨Nat.find hadv, ht, hcalls⟩, hmosi⟩
  · rw [e]
    exact Nat.le_trans hclose (sub32_le _ _ (hmono (by omega)))
  · intro j hj
    exact hopen j (by omega)

theorem SDCard_Init_never_ready_witness :
    ∃ N, ∀ fuel, N ≤ fuel → ∃ s2,
      SDCard_Init (cardBusy 0x00 1) fuel State.init = some (SD_TIMEOUT, s2) ∧
      s2.log = State.init.log ∧
      0xFFFF ≤ (cardBusy 0x00 1).tick (s2.tickCalls - 1)
        - (cardBusy 0x00 1).tick State.init.tickCalls ∧
      (∀ j, State.init.tickCalls + 1 + j < s2.tickCalls - 1 →
        sub32 ((cardBusy 0x00 1).tick (State.init.tickCalls + 1 + j))
          ((cardBusy 0x00 1).tick State.init.tickCalls) < 0xFFFF) ∧
      (∃ k, s2.tickCalls = State.init.tickCalls + k + 2 ∧
        s2.halCalls = State.init.halCalls + 10 + k) ∧
      (∃ m, s2.mosi = State.init.mosi ++ List.replicate m 0xFF) :=
  SDCard_Init_never_ready (cardBusy 0x00 1) 0x00 State.init (by decide) (fun _ => rfl)
    (fun _ _ h => Nat.mul_le_mul_left 1 h) ⟨65534, cardBusy_window.2⟩

/-! ## Capacity classification -/

/-- C10: the capacity report of `SDCard_Init` for a card whose OCR is
0x80FF8000 (bit 30 clear, standard capacity).  The run reaches the CMD58 step,
reads R1 = 0x00 and the four OCR bytes, returns `SD_OK`, and the log line is
"SD Card Extended Capacity"; the test `x & (1 << 30) == 0` of the code is 0 for
every `x`, so the standard-capacity branch is never taken. -/
theorem SDCard_Init_standard_card_reported_extended :
    (SDCard_Init cardStandard 3 State.init).map (fun r => (r.1, r.2.log))
      = some (SD_OK, ["SD Card Type: SD Ver. 2\r\n", "SD Card Extended Capacity\r\n"]) ∧
    (0x80FF8000 : Nat).testBit 30 = false ∧
    ∀ x : Nat, x &&& (if (1 <<< 30 : Nat) = 0 then 1 else 0) = 0 := by
  refine ⟨by decide, by decide, fun x => ?_⟩
  simp


/-! ## Chip-select on return -/

theorem SDCardStopMultipleWriting_releases (env : Env) (fuel : Nat) (s s2 : State)
    (st : sd_card_status_t) (h : SDCardStopMultipleWriting env fuel s = some (st, s2)) :
    s2.cs = true := by
  unfold SDCardStopMultipleWriting at h
  dsimp only at h
  split at h
  · cases h; rfl
  · split at h
    · cases h; rfl
    · split at h
      · cases h
      · split at h
        · cases h; rfl
        · cases h; rfl

set_option maxRecDepth 1000000 in
theorem SDCardReadBlock_ok_releases :
    (SDCardReadBlock cardReadOk 3 0 0 State.init).map (fun r => (r.1, r.2.cs))
      = some (SD_OK, true) := by
  decide

/-- C11: chip-select when a transfer returns early.  Against a card that stays
busy (the ready wait times out), `SDCardReadBlock`, `SDCardWriteBlock`,
`SDCardStartMultipleWriting` and `SDCardPushBlock` return `SD_TIMEOUT` with the
chip-select pin still low (asserted); against a card that answers R1 = 0x04
the first three return `SD_ERROR` with the pin still low.
On the `SD_OK` path the pin is released, and `SDCardStopMultipleWriting` drives
the pin high on every return path. -/
theorem transfers_return_with_chip_select_low :
    (SDCardReadBlock (cardBusy 0x00 1000) 1 0 0 State.init).map (fun r => (r.1, r.2.cs))
      = some (SD_TIMEOUT, false) ∧
    (SDCardWriteBlock (cardBusy 0x00 1000) 1 0 0 State.init).map (fun r => (r.1, r.2.cs))
      = some (SD_TIMEOUT, false) ∧
    (SDCardStartMultipleWriting (cardBusy 0x00 1000) 1 0 State.init).map
        (fun r => (r.1, r.2.cs)) = some (SD_TIMEOUT, false) ∧
    (SDCardPushBlock (cardBusy 0x00 1000) 1 0 State.init).map (fun r => (r.1, r.2.cs))
      = some (SD_TIMEOUT, false) ∧
    (SDCardReadBlock cardIllegal 1 0 0 State.init).map (fun r => (r.1, r.2.cs))
      = some (SD_ERROR, false) ∧
    (SDCardWriteBlock cardIllegal 1 0 0 State.init).map (fun r => (r.1, r.2.cs))
      = some (SD_ERROR, false) ∧
    (SDCardStartMultipleWriting cardIllegal 1 0 State.init).map (fun r => (r.1, r.2.cs))
      = some (SD_ERROR, false) ∧
    (SDCardReadBlock cardReadOk 3 0 0 State.init).map (fun r => (r.1, r.2.cs))
      = some (SD_OK, true) ∧
    (SDCardStopMultipleWriting (cardBusy 0x00 1000) 1 State.init).map (fun r => (r.1, r.2.cs))
      = some (SD_TIMEOUT, true) ∧
    ∀ (env : Env) (fuel : Nat) (s s2 : State) (st : sd_card_status_t),
      SDCardStopMultipleWriting env fuel s = some (st, s2) → s2.cs = true := by
  refine ⟨by decide, by decide, by decide, by decide, by decide, by decide, by decide,
    SDCardReadBlock_ok_releases, by decide, SDCardStopMultipleWriting_releases⟩


end SdSpi
